import Mathlib

/-!
Verification of the Pygmalion design-assistant repository.

The development shallowly embeds the Python modules of the repository
(`pygmalion/config.py`, `pygmalion/agent.py` and the tool adapters under
`pygmalion/tools/`) as executable Lean definitions and proves the
specification claims about them.

Python strings are modelled as `List Char`; `os.environ` as a partial map
from variable names to such strings; the file system as a partial map from
paths to file sizes; external processes and remote API calls as explicit
oracle parameters.  Machine-level caveats (Unicode case folding beyond
ASCII, floating-point shortest-repr printing) are modelled by the exact
ASCII / exact-decimal behaviour, which coincides with CPython on every
value the program and the claims exercise; each such spot carries a note.
-/

namespace Pygmalion

/-- Python strings, modelled as lists of characters. -/
abbrev Str := List Char

/-- Converts a Lean string literal to the `Str` model. -/
def str (s : String) : Str := s.toList

/-- Python `s.startswith(sub)`: `sub` is a prefix of `s`. -/
def pyStartsWith : Str → Str → Bool
  | [], _ => true
  | _ :: _, [] => false
  | a :: as, b :: bs => a == b && pyStartsWith as bs

/-- Python `s.endswith(sub)`: `sub` is a suffix of `s`. -/
def pyEndsWith (sub s : Str) : Bool := pyStartsWith sub.reverse s.reverse

/-- Python `s.find(sub)`: index of the first occurrence of `sub` in `s`,
`none` standing for Python's `-1`. -/
def pyFind : Str → Str → Option Nat
  | [], sub => if sub = [] then some 0 else none
  | c :: rest, sub =>
    if pyStartsWith sub (c :: rest) then some 0
    else (pyFind rest sub).map (· + 1)

/-- Python `s.rfind(sub)`: index of the last occurrence of `sub` in `s`,
`none` standing for Python's `-1`. -/
def pyRFind : Str → Str → Option Nat
  | [], sub => if sub = [] then some 0 else none
  | c :: rest, sub =>
    match pyRFind rest sub with
    | some i => some (i + 1)
    | none => if pyStartsWith sub (c :: rest) then some 0 else none

/-- Python `sub in s` on strings (substring containment). -/
def pyContainsStr (s sub : Str) : Bool := (pyFind s sub).isSome

/-- The whitespace characters stripped by Python `str.strip()`
(ASCII whitespace; the further Unicode space characters never occur
in this program's data). -/
def isPySpace (c : Char) : Bool :=
  c == ' ' || c == '\t' || c == '\n' || c == '\r' || c == '\x0b' || c == '\x0c'

/-- Python `s.strip()`. -/
def pyStrip (s : Str) : Str :=
  ((s.dropWhile isPySpace).reverse.dropWhile isPySpace).reverse

/-- ASCII lower-casing of one character, the behaviour of Python
`str.lower()` on the ASCII data this program handles. -/
def charLower (c : Char) : Char :=
  if 'A' ≤ c ∧ c ≤ 'Z' then Char.ofNat (c.toNat + 32) else c

/-- ASCII upper-casing of one character, the behaviour of Python
`str.upper()` on the ASCII data this program handles. -/
def charUpper (c : Char) : Char :=
  if 'a' ≤ c ∧ c ≤ 'z' then Char.ofNat (c.toNat - 32) else c

/-- Python `s.lower()` (ASCII). -/
def pyLower (s : Str) : Str := s.map charLower

/-- Python `s.upper()` (ASCII). -/
def pyUpper (s : Str) : Str := s.map charUpper

/-- Python `s.capitalize()`: first character upper-cased, the rest
lower-cased. -/
def pyCapitalize : Str → Str
  | [] => []
  | c :: rest => charUpper c :: pyLower rest

/-- Python `s.replace(old, new)` for a single-character pattern and a
single-character replacement (`.replace("-", "_")` and the like). -/
def pyReplaceChar (s : Str) (old new : Char) : Str :=
  s.map fun c => if c = old then new else c

/-- Python `s.replace(old, new)` for a single-character pattern and a
two-character replacement (the quote escaping in `gimp_text`). -/
def pyReplaceCharTwo (s : Str) (old : Char) (new₁ new₂ : Char) : Str :=
  s.flatMap fun c => if c = old then [new₁, new₂] else [c]

/-- Python `s.split(sep)` for a one-character separator. -/
def pySplitChar (s : Str) (sep : Char) : List Str := s.splitOn sep

/-- Python `sep.join(parts)` for a one-character separator. -/
def pyJoinChar (parts : List Str) (sep : Char) : Str := List.intercalate [sep] parts

/-- Python slicing `s[a:b]` for `0 ≤ a ≤ b`. -/
def pySlice (s : Str) (a b : Nat) : Str := (s.drop a).take (b - a)

/-- Decimal digit characters of a natural number, most significant first. -/
def natDigits (n : Nat) : Str :=
  (Nat.toDigits 10 n)

/-- Python `str(n)` for a non-negative integer. -/
def natToStr (n : Nat) : Str := natDigits n

/-- Python `str(n)` for an integer. -/
def intToStr (n : Int) : Str :=
  if n < 0 then '-' :: natToStr n.natAbs else natToStr n.natAbs

/-- Python `f"{n:+d}"`: decimal with an explicit sign. -/
def intToStrSigned (n : Int) : Str :=
  if n < 0 then '-' :: natToStr n.natAbs else '+' :: natToStr n.natAbs

/-- Inserts thousands separators into a digit string, rightmost group of
three first. -/
def commaGroup (digits : Str) : Str :=
  let rec go : Str → Str
    | [] => []
    | ds =>
      if ds.length ≤ 3 then ds
      else go (ds.take (ds.length - 3)) ++ (',' :: ds.drop (ds.length - 3))
  termination_by ds => ds.length
  decreasing_by
    simp only [List.length_take]
    omega
  go digits

/-- Python `f"{n:,}"` for a non-negative integer (file sizes). -/
def natToStrComma (n : Nat) : Str := commaGroup (natDigits n)

/-- Python `f"{n:+,}"` for an integer (the signed size delta in
`convert_svg` and `image_convert`). -/
def intToStrSignedComma (n : Int) : Str :=
  if n < 0 then '-' :: natToStrComma n.natAbs else '+' :: natToStrComma n.natAbs

/-- Fractional decimal digits of `num/den` (num already reduced below den),
produced by long division with the given fuel. -/
def fracDigits : Nat → Nat → Nat → Str
  | 0, _, _ => []
  | _ + 1, 0, _ => []
  | fuel + 1, num, den =>
    let q := num * 10 / den
    let r := num * 10 % den
    Char.ofNat ('0'.toNat + q) :: fracDigits fuel r den

/-- Python `str(x)` for a float `x = num/den` whose value has a short exact
decimal expansion (all float values this program prints divide by 2, 5, 20
or 100, for which CPython's shortest round-trip repr is exactly that
expansion, with at least one fractional digit). -/
def pyFloatStr (num : Int) (den : Nat) : Str :=
  let sign : Str := if num < 0 then ['-'] else []
  let n := num.natAbs
  let whole := natToStr (n / den)
  let frac := fracDigits 25 (n % den) den
  let frac := if frac = [] then ['0'] else
    -- trim trailing zeros, keeping at least one digit
    let t := (frac.reverse.dropWhile (· = '0')).reverse
    if t = [] then ['0'] else t
  sign ++ whole ++ '.' :: frac

/-- Model of a Python float argument as an exact rational `num/den`; the
values occurring in the program and the claims are all exactly
representable. -/
structure PyFloat where
  num : Int
  den : Nat
deriving DecidableEq, Repr

/-- Python `str(x)` on the `PyFloat` model. -/
def PyFloat.toStr (x : PyFloat) : Str := pyFloatStr x.num x.den

/-- Python truthiness of a float (`if args.get("blur"):`). -/
def PyFloat.isTruthy (x : PyFloat) : Bool := x.num ≠ 0

/-- Python `os.path.isabs`. -/
def pyIsAbs (p : Str) : Bool := pyStartsWith (str "/") p

/-- Python `os.path.join(a, b)` for two components. -/
def pyJoinPath (a b : Str) : Str :=
  if pyIsAbs b then b
  else if a = [] then b
  else if pyEndsWith (str "/") a then a ++ b
  else a ++ '/' :: b

/-- Python `os.path.abspath(p)` relative to the process working directory
`cwd` (path normalisation beyond anchoring is not modelled; the program
never feeds it `..` segments). -/
def pyAbsPath (cwd p : Str) : Str :=
  if pyIsAbs p then p else pyJoinPath cwd p

/-- Python `os.path.dirname(p)`: everything before the last slash, `""`
when there is none. -/
def pyDirname (p : Str) : Str :=
  match pyRFind p (str "/") with
  | none => []
  | some i => pySlice p 0 i

/-- Python `os.path.splitext(p)`: splits off the extension beginning at the
last dot of the base name, provided that dot is not its first character. -/
def pySplitExt (p : Str) : Str × Str :=
  let baseStart := match pyRFind p (str "/") with
    | none => 0
    | some i => i + 1
  match pyRFind p (str ".") with
  | none => (p, [])
  | some j =>
    if baseStart < j then (pySlice p 0 j, pySlice p j p.length)
    else (p, [])

/-- Process environment: a partial map from variable names to string
values (`os.environ`). -/
abbrev Env := String → Option Str

/-- Python `os.environ.get(key, default)`. -/
def envGetD (env : Env) (key : String) (d : Str) : Str := (env key).getD d

/-- Setting a process environment variable (`os.environ[key] = value`). -/
def envSet (env : Env) (key : String) (v : Str) : Env :=
  fun k => if k = key then some v else env k

/-- The empty environment. -/
def emptyEnv : Env := fun _ => none

instance {α β : Type} [DecidableEq α] [DecidableEq β] : DecidableEq (Except α β) :=
  fun a b =>
    match a, b with
    | .ok x, .ok y =>
      if h : x = y then .isTrue (by rw [h]) else .isFalse (by intro hc; cases hc; exact h rfl)
    | .error x, .error y =>
      if h : x = y then .isTrue (by rw [h]) else .isFalse (by intro hc; cases hc; exact h rfl)
    | .ok _, .error _ => .isFalse (by intro hc; cases hc)
    | .error _, .ok _ => .isFalse (by intro hc; cases hc)

/-! ### `pygmalion/config.py` -/

/-- Autonomy levels for the design session (`config.AutonomyMode`). -/
inductive AutonomyMode where
  | APPROVAL
  | AUTO
  | FULL_AUTO
deriving DecidableEq, Repr

/-- The SDK permission-mode string of each autonomy mode
(the enum member values). -/
def AutonomyMode.value : AutonomyMode → Str
  | .APPROVAL => str "default"
  | .AUTO => str "acceptEdits"
  | .FULL_AUTO => str "bypassPermissions"

/-- Normalisation performed at the top of `AutonomyMode.from_string`:
lower-case, then `-` and space become `_`. -/
def normalizeModeStr (value : Str) : Str :=
  pyReplaceChar (pyReplaceChar (pyLower value) '-' '_') ' ' '_'

/-- Embeds `AutonomyMode.from_string`; `Except.error` carries the
`ValueError` message. -/
def AutonomyMode.from_string (value : Str) : Except Str AutonomyMode :=
  let value := normalizeModeStr value
  if value = str "approval" ∨ value = str "default" then .ok .APPROVAL
  else if value = str "auto" ∨ value = str "acceptedits" then .ok .AUTO
  else if value = str "full_auto" ∨ value = str "fullauto" ∨
      value = str "bypass" ∨ value = str "bypasspermissions" then .ok .FULL_AUTO
  else .error (str "Unknown autonomy mode: " ++ value ++
    str ". Expected: approval, auto, or full_auto")

/-- The normalised spellings accepted by `from_string`. -/
def acceptedModeSpellings : List Str :=
  [str "approval", str "default", str "auto", str "acceptedits",
   str "full_auto", str "fullauto", str "bypass", str "bypasspermissions"]

/-- Embeds `get_default_autonomy_mode`: reads `PYGMALION_AUTONOMY_MODE`,
falling back to `APPROVAL` when the variable is absent, blank or
unparsable. -/
def get_default_autonomy_mode (env : Env) : AutonomyMode :=
  let env_value := pyStrip (envGetD env "PYGMALION_AUTONOMY_MODE" [])
  if env_value ≠ [] then
    match AutonomyMode.from_string env_value with
    | .ok m => m
    | .error _ => .APPROVAL
  else .APPROVAL

/-- The strings `config.py` accepts as a truthy enable flag. -/
def truthyFlagValues : List Str := [str "true", str "1", str "yes", str "on"]

/-- Embeds `is_gemini_enabled`: the opt-in flag must be truthy AND the key
non-blank. -/
def is_gemini_enabled (env : Env) : Bool :=
  let enabled := pyLower (envGetD env "PYGMALION_GEMINI_ENABLED" [])
  let has_key := pyStrip (envGetD env "GEMINI_API_KEY" []) ≠ []
  enabled ∈ truthyFlagValues && has_key

/-- Embeds `is_figma_enabled`: the opt-in flag must be truthy AND the
token non-blank. -/
def is_figma_enabled (env : Env) : Bool :=
  let enabled := pyLower (envGetD env "PYGMALION_FIGMA_ENABLED" [])
  let has_token := pyStrip (envGetD env "FIGMA_ACCESS_TOKEN" []) ≠ []
  enabled ∈ truthyFlagValues && has_token

/-- Modelled from the spec: `is_grok_enabled` is imported by `agent.py`
but its definition is not among the provided sources; per the spec's
optional-integration rule (an explicit opt-in flag plus a credential,
both required), it is modelled as `PYGMALION_GROK_ENABLED` truthy AND
`XAI_API_KEY` non-blank. -/
def is_grok_enabled (env : Env) : Bool :=
  let enabled := pyLower (envGetD env "PYGMALION_GROK_ENABLED" [])
  let has_key := pyStrip (envGetD env "XAI_API_KEY" []) ≠ []
  enabled ∈ truthyFlagValues && has_key

/-! ### Tool-name constants of the adapter modules -/

/-- Tool names exported by `tools/inkscape.py`. -/
def INKSCAPE_TOOL_NAMES : List String :=
  ["mcp__inkscape__export_svg",
   "mcp__inkscape__open_in_inkscape",
   "mcp__inkscape__query_svg",
   "mcp__inkscape__convert_svg"]

/-- Tool names exported by `tools/imagemagick.py`. -/
def IMAGEMAGICK_TOOL_NAMES : List String :=
  ["mcp__imagemagick__image_resize",
   "mcp__imagemagick__image_convert",
   "mcp__imagemagick__image_effects",
   "mcp__imagemagick__image_composite"]

/-- Tool names exported by `tools/gimp.py`. -/
def GIMP_TOOL_NAMES : List String :=
  ["mcp__gimp__open_in_gimp",
   "mcp__gimp__gimp_script",
   "mcp__gimp__gimp_filter",
   "mcp__gimp__gimp_text",
   "mcp__gimp__gimp_composite"]

/-- Tool names exported by `tools/weasyprint.py`. -/
def WEASYPRINT_TOOL_NAMES : List String :=
  ["mcp__weasyprint__html_to_pdf"]

/-- Tool names exported by `tools/gemini.py`. -/
def GEMINI_TOOL_NAMES : List String :=
  ["mcp__gemini__gemini_generate_image",
   "mcp__gemini__gemini_generate_svg"]

/-- The Figma tool names listed inline in `DesignSession.DEFAULT_TOOLS`. -/
def FIGMA_TOOL_NAMES : List String :=
  ["mcp__figma__get_figma_data",
   "mcp__figma__download_figma_images"]

/-- The Grok tool names listed inline in `DesignSession.DEFAULT_TOOLS`. -/
def GROK_TOOL_NAMES : List String :=
  ["mcp__grok__generate_image",
   "mcp__grok__chat_with_vision"]

/-- Embeds `DesignSession.DEFAULT_TOOLS`, the resolved tool allow-list;
it is computed from the process environment at class-definition time. -/
def DEFAULT_TOOLS (env : Env) : List String :=
  ["Read", "Write", "Edit", "Bash", "Glob", "Grep",
   "WebSearch", "WebFetch", "Skill"]
  ++ INKSCAPE_TOOL_NAMES
  ++ IMAGEMAGICK_TOOL_NAMES
  ++ GIMP_TOOL_NAMES
  ++ WEASYPRINT_TOOL_NAMES
  ++ (if is_gemini_enabled env then GEMINI_TOOL_NAMES else [])
  ++ (if is_figma_enabled env then FIGMA_TOOL_NAMES else [])
  ++ (if is_grok_enabled env then GROK_TOOL_NAMES else [])

/-- The spec-side gating condition for the Gemini integration, written
from the claim: the opt-in flag holds a truthy value and the credential
variable is present and non-blank. -/
def specGeminiGate (env : Env) : Prop :=
  pyLower (envGetD env "PYGMALION_GEMINI_ENABLED" []) ∈ truthyFlagValues ∧
  pyStrip (envGetD env "GEMINI_API_KEY" []) ≠ []

/-- The spec-side gating condition for the Figma integration. -/
def specFigmaGate (env : Env) : Prop :=
  pyLower (envGetD env "PYGMALION_FIGMA_ENABLED" []) ∈ truthyFlagValues ∧
  pyStrip (envGetD env "FIGMA_ACCESS_TOKEN" []) ≠ []

instance (env : Env) : Decidable (specGeminiGate env) := by
  unfold specGeminiGate; infer_instance

instance (env : Env) : Decidable (specFigmaGate env) := by
  unfold specFigmaGate; infer_instance

/-! ### File-system and response-envelope model -/

/-- The file system, as a partial map from paths to file sizes
(`os.path.exists p = (fs p).isSome`, `os.path.getsize p = (fs p).getD 0`). -/
abbrev FS := Str → Option Nat

/-- Writing a file of `n` bytes at path `p`. -/
def fsSet (fs : FS) (p : Str) (n : Nat) : FS :=
  fun q => if q = p then some n else fs q

/-- Python `os.path.exists`. -/
def fsExists (fs : FS) (p : Str) : Bool := (fs p).isSome

/-- Python `os.path.getsize`. -/
def fsSize (fs : FS) (p : Str) : Nat := (fs p).getD 0

/-- The fixed MCP response envelope
`{"content": [{"type": "text", "text": t}]}` that every adapter returns;
only the text payload varies. -/
structure ToolResponse where
  text : Str
deriving DecidableEq, Repr

/-! ### `pygmalion/tools/gemini.py` -/

/-- Oracle for the remote Gemini API; `Except.error` carries the message
of an exception raised by the client library. -/
structure GeminiWorld where
  /-- `client.models.generate_images` — the byte sizes of
  `generated_images[*].image.image_bytes`. -/
  generateImages : Str → Int → Str → Str → Except Str (List Nat)
  /-- `client.models.generate_content` on the 4K image model — the byte
  size of the inline image data, `none` when no part carries one. -/
  generateContent4k : Str → Str → Except Str (Option Nat)
  /-- `client.models.generate_content` on a text model — the text of
  `candidates[0].content.parts[0]`, `none` when no content came back. -/
  generateText : Str → Str → Except Str (Option Str)

/-- Observable outcome of one Gemini adapter call: the response envelope,
the file system afterwards, the directories passed to `os.makedirs`, the
paths written, and whether the 4K helper `_generate_image_4k` ran. -/
structure GeminiRun where
  resp : ToolResponse
  fs : FS
  dirsCreated : List Str
  writes : List Str
  invoked4k : Bool

/-- Embeds `_check_gemini_available` (module flag `GEMINI_AVAILABLE` is
the `available` parameter). -/
def check_gemini_available (available : Bool) : Option ToolResponse :=
  if available then none
  else some ⟨str "Google Gemini SDK not installed. Install it with:\n  pip install google-genai\nOr install Pygmalion with Gemini support:\n  pip install -e \".[gemini]\"\n\nNote: The old google-generativeai package is deprecated. Use google-genai instead."⟩

/-- Python `os.environ.get("GEMINI_API_KEY") or os.environ.get("GOOGLE_API_KEY")`. -/
def lookupGeminiKey (env : Env) : Option Str :=
  match env "GEMINI_API_KEY" with
  | some v => if v ≠ [] then some v else env "GOOGLE_API_KEY"
  | none => env "GOOGLE_API_KEY"

/-- The `_check_api_key` error envelope. -/
def missingKeyResponse : ToolResponse :=
  ⟨str "GEMINI_API_KEY or GOOGLE_API_KEY environment variable not set.\n\nTo use Gemini:\n1. Get an API key from: https://aistudio.google.com/apikey\n2. Set the environment variable:\n   export GEMINI_API_KEY=your-key-here\n3. Restart your session"⟩

/-- Embeds `_check_api_key`: `.ok` carries the key, `.error` the fixed
envelope. -/
def check_api_key (env : Env) : Except ToolResponse Str :=
  match lookupGeminiKey env with
  | some v => if v = [] then .error missingKeyResponse else .ok v
  | none => .error missingKeyResponse

/-- The valid image-size strings (`VALID_IMAGE_SIZES`). -/
def VALID_IMAGE_SIZES : List Str := [str "1K", str "2K", str "4K"]

/-- The image-size resolution of `gemini_generate_image` lines 310-319:
the environment default takes precedence, then the argument, then `"1K"`;
anything invalid falls back to `"1K"`. -/
def resolveImageSize (env : Env) (argSize : Option Str) : Str :=
  let env_image_size := pyUpper (envGetD env "PYGMALION_GEMINI_IMAGE_SIZE" [])
  let image_size :=
    if env_image_size ∈ VALID_IMAGE_SIZES then env_image_size
    else argSize.getD (str "1K")
  if image_size ∈ VALID_IMAGE_SIZES then image_size else str "1K"

/-- Path resolution shared by the Gemini adapters (lines 194-201, 381-390,
692-699): a relative output path is anchored at `PYGMALION_OUTPUT_DIR`
when that is set and non-empty, else made absolute against the process
working directory. -/
def resolveGeminiOutput (env : Env) (cwd output_file : Str) : Str :=
  if pyIsAbs output_file then output_file
  else
    match env "PYGMALION_OUTPUT_DIR" with
    | some d => if d ≠ [] then pyJoinPath d output_file else pyAbsPath cwd output_file
    | none => pyAbsPath cwd output_file

/-- The `os.makedirs(parent_dir, exist_ok=True)` guard: the list of
directories created (one entry when the path has a directory part). -/
def makedirsFor (p : Str) : List Str :=
  let parent := pyDirname p
  if parent ≠ [] then [parent] else []

/-- The rejection envelope for batch generation at the 4K tier. -/
def fourKRejectResponse : ToolResponse :=
  ⟨str "4K resolution only supports generating 1 image at a time.\nPlease set num_images to 1, or use 1K/2K for batch generation."⟩

/-- Embeds `_generate_image_4k`; an `Except.error` is an exception from
the client library propagating to the caller's handler. -/
def generate_image_4k (env : Env) (cwd : Str) (world : GeminiWorld) (fs : FS)
    (prompt output_file aspect_ratio : Str) : Except Str GeminiRun :=
  match world.generateContent4k prompt aspect_ratio with
  | .error e => .error e
  | .ok none =>
    .ok ⟨⟨str "4K image generation failed. The model did not return an image.\nThis could be due to:\n- Content policy violation\n- Invalid prompt\n- API rate limit\n\nTry rephrasing your prompt or try again later."⟩,
      fs, [], [], false⟩
  | .ok (some nbytes) =>
    let abs_output_file := resolveGeminiOutput env cwd output_file
    let dirs := makedirsFor abs_output_file
    let fs' := fsSet fs abs_output_file nbytes
    if fsExists fs' abs_output_file then
      let file_size := fsSize fs' abs_output_file
      .ok ⟨⟨str "Successfully generated 4K image with Gemini 3 Pro (preview)\nPrompt: " ++ prompt ++
        str "\nOutput: " ++ abs_output_file ++ str " (" ++ natToStrComma file_size ++
        str " bytes)\nAspect ratio: " ++ aspect_ratio ++
        str "\nImage size: 4K\nNote: Using preview model (gemini-3-pro-image-preview)"⟩,
        fs', dirs, [abs_output_file], false⟩
    else
      .ok ⟨⟨str "4K image generation completed but file save failed"⟩, fs', dirs, [abs_output_file], false⟩

/-- The exception classifier at the bottom of `gemini_generate_image`. -/
def classifyGeminiImageError (e : Str) : Str :=
  if pyContainsStr (pyLower e) (str "quota") ∨ pyContainsStr (pyLower e) (str "rate") then
    str "Gemini API rate limit or quota exceeded.\nError: " ++ e ++
    str "\n\nPlease try again later or check your API quota at:\nhttps://console.cloud.google.com/apis/api/generativelanguage.googleapis.com/quotas"
  else if pyContainsStr (pyLower e) (str "api key") ∨ pyContainsStr (pyLower e) (str "auth") then
    str "Gemini API authentication error.\nError: " ++ e ++
    str "\n\nPlease verify your API key is correct and active."
  else
    str "Gemini image generation error: " ++ e

/-- Arguments of the `gemini_generate_image` tool (`prompt` and
`output_file` are schema-required, the rest optional). -/
structure GenImageArgs where
  prompt : Str
  output_file : Str
  num_images : Option Int := none
  aspect_ratio : Option Str := none
  image_size : Option Str := none

/-- Saving loop of the multi-image branch: writes each image as
`{base}_{i}{ext}` and returns the saved paths together with the updated
file system. -/
def saveNumbered (fs : FS) (base ext : Str) : Nat → List Nat → List Str × FS
  | _, [] => ([], fs)
  | i, n :: rest =>
    let numbered := base ++ '_' :: natToStr i ++ ext
    let fs' := fsSet fs numbered n
    let (saved, fs'') := saveNumbered fs' base ext (i + 1) rest
    (if fsExists fs' numbered then numbered :: saved else saved, fs'')

/-- Embeds the `gemini_generate_image` tool body. -/
def gemini_generate_image (available : Bool) (env : Env) (cwd : Str)
    (world : GeminiWorld) (fs : FS) (args : GenImageArgs) : GeminiRun :=
  match check_gemini_available available with
  | some err => ⟨err, fs, [], [], false⟩
  | none =>
  match check_api_key env with
  | .error err => ⟨err, fs, [], [], false⟩
  | .ok _api_key =>
  let prompt := args.prompt
  let output_file := args.output_file
  let num_images := args.num_images.getD 1
  let aspect_ratio := (args.aspect_ratio).getD (str "1:1")
  let image_size := resolveImageSize env args.image_size
  if prompt = [] ∨ (pyStrip prompt).length < 3 then
    ⟨⟨str "Error: Prompt must be at least 3 characters long"⟩, fs, [], [], false⟩
  else if image_size = str "4K" then
    if num_images > 1 then
      ⟨fourKRejectResponse, fs, [], [], false⟩
    else
      match generate_image_4k env cwd world fs prompt output_file aspect_ratio with
      | .ok r => { r with invoked4k := true }
      | .error e => ⟨⟨classifyGeminiImageError e⟩, fs, [], [], true⟩
  else
    match world.generateImages prompt num_images aspect_ratio image_size with
    | .error e => ⟨⟨classifyGeminiImageError e⟩, fs, [], [], false⟩
    | .ok generated =>
      if generated = [] then
        ⟨⟨str "Image generation failed. This could be due to:\n- Content policy violation\n- Invalid prompt\n- API rate limit\n- Network error\n\nTry rephrasing your prompt or try again later."⟩,
          fs, [], [], false⟩
      else
        let output_file := resolveGeminiOutput env cwd output_file
        let dirs := makedirsFor output_file
        if num_images = 1 then
          let nbytes := generated.headD 0
          let fs' := fsSet fs output_file nbytes
          if fsExists fs' output_file then
            let file_size := fsSize fs' output_file
            ⟨⟨str "Successfully generated image with Gemini Imagen 4.0\nPrompt: " ++ prompt ++
              str "\nOutput: " ++ output_file ++ str " (" ++ natToStrComma file_size ++
              str " bytes)\nAspect ratio: " ++ aspect_ratio ++ str "\nImage size: " ++ image_size ++
              str "\nNote: Image includes SynthID watermark"⟩,
              fs', dirs, [output_file], false⟩
          else
            ⟨⟨str "Image generation completed but file save failed"⟩, fs', dirs, [output_file], false⟩
        else
          let base_name := (pySplitExt output_file).1
          let extension := if (pySplitExt output_file).2 = [] then str ".png" else (pySplitExt output_file).2
          let dirs := dirs ++ makedirsFor output_file
          let (saved_files, fs') := saveNumbered fs base_name extension 1 generated
          if saved_files ≠ [] then
            let files_list := pyJoinChar (saved_files.map (fun f => str "  - " ++ f)) '\n'
            ⟨⟨str "Successfully generated " ++ natToStr saved_files.length ++
              str " images with Gemini Imagen 4.0\nPrompt: " ++ prompt ++
              str "\nFiles:\n" ++ files_list ++
              str "\nAspect ratio: " ++ aspect_ratio ++ str "\nImage size: " ++ image_size ++
              str "\nNote: Images include SynthID watermark"⟩,
              fs', dirs, saved_files, false⟩
          else
            ⟨⟨str "Image generation completed but no files were saved"⟩, fs', dirs, [], false⟩

/-- The default SVG model constant (`DEFAULT_SVG_MODEL`). -/
def DEFAULT_SVG_MODEL : Str := str "gemini-2.5-flash"

/-- Fence-stripping step of `gemini_generate_svg` lines 662-670: drop the
first line, cut at the next line starting with three backticks, rejoin and
strip. -/
def removeCodeFences (svg_content : Str) : Str :=
  let lines := pySplitChar svg_content '\n'
  let end_idx :=
    match (lines.drop 1).findIdx? (fun line => pyStartsWith (str "```") line) with
    | some k => k + 1
    | none => lines.length
  pyStrip (pyJoinChar ((lines.drop 1).take (end_idx - 1)) '\n')

/-- The SVG-extraction step of `gemini_generate_svg` (lines 659-690):
strip, unwrap code fences when the reply starts with them, then (unless
the text already starts with `<svg`) cut from the first `<svg` to the
last `</svg>`; `none` is the explicit extraction failure. -/
def extractSvgContent (raw : Str) : Option Str :=
  let svg₀ := pyStrip raw
  let svg₁ := if pyStartsWith (str "```") svg₀ then removeCodeFences svg₀ else svg₀
  if pyStartsWith (str "<svg") svg₁ then some svg₁
  else
    match pyFind svg₁ (str "<svg"), pyRFind svg₁ (str "</svg>") with
    | some a, some b => some (pySlice svg₁ a (b + 6))
    | _, _ => none

/-- The error envelope returned when no SVG span can be extracted. -/
def svgInvalidOutputResponse : ToolResponse :=
  ⟨str "SVG generation produced invalid output.\nThe response did not contain valid SVG code.\nTry a more specific prompt."⟩

/-- The style-guidance lookup of `gemini_generate_svg`
(`style_guidance.get(style, style_guidance["minimal"])`). -/
def styleGuidance (style : Str) : Str :=
  if style = str "minimal" then str "Clean lines, minimal elements, simplicity."
  else if style = str "geometric" then str "Precise geometric shapes, mathematical precision."
  else if style = str "organic" then str "Flowing curves, bezier paths, natural forms."
  else if style = str "detailed" then str "Fine details, textures, ornamentation."
  else if style = str "flat" then str "Solid flat colors only, no gradients or effects."
  else str "Clean lines, minimal elements, simplicity."

/-- The prompt template sent to the text model by `gemini_generate_svg`. -/
def buildSvgPrompt (prompt style : Str) (viewbox_size : Int) : Str :=
  str "Generate clean, well-structured SVG code for:\n\n" ++ prompt ++
  str "\n\nStyle guidance: " ++ styleGuidance style ++
  str "\n\nRequirements:\n- Output ONLY valid SVG code, no explanation or markdown\n- Use viewBox=\"0 0 " ++
  intToStr viewbox_size ++ str " " ++ intToStr viewbox_size ++
  str "\"\n- Do NOT include width/height attributes (viewBox handles scaling)\n- Keep paths clean and optimized\n- Ensure the design is centered and well-composed\n- Start with <svg and end with </svg>\n\nSVG code:"

/-- The exception classifier at the bottom of `gemini_generate_svg`. -/
def classifyGeminiSvgError (model e : Str) : Str :=
  if pyContainsStr (pyLower e) (str "not found") ∨ pyContainsStr e (str "404") then
    str "Model not found: " ++ model ++ str "\nError: " ++ e ++
    str "\n\nAvailable models:\n- gemini-2.5-flash (fast, stable)\n- gemini-2.5-pro (powerful, stable)\n- gemini-3-flash (preview)\n\nNote: Model names may change. Use stable 2.5 models for reliability."
  else if pyContainsStr (pyLower e) (str "quota") ∨
      (pyContainsStr (pyLower e) (str "rate") ∧ pyContainsStr (pyLower e) (str "limit")) then
    str "Gemini API rate limit exceeded.\nError: " ++ e
  else if pyContainsStr (pyLower e) (str "api key") ∨ pyContainsStr (pyLower e) (str "auth") then
    str "Gemini API authentication error.\nError: " ++ e
  else
    str "Gemini SVG generation error: " ++ e

/-- Arguments of the `gemini_generate_svg` tool. -/
structure GenSvgArgs where
  prompt : Str
  output_file : Str
  style : Option Str := none
  viewbox_size : Option Int := none
  model : Option Str := none

/-- Embeds the `gemini_generate_svg` tool body. -/
def gemini_generate_svg (available : Bool) (env : Env) (cwd : Str)
    (world : GeminiWorld) (fs : FS) (args : GenSvgArgs) : GeminiRun :=
  match check_gemini_available available with
  | some err => ⟨err, fs, [], [], false⟩
  | none =>
  match check_api_key env with
  | .error err => ⟨err, fs, [], [], false⟩
  | .ok _api_key =>
  let prompt := args.prompt
  let output_file := args.output_file
  let style := (args.style).getD (str "minimal")
  let viewbox_size := (args.viewbox_size).getD 100
  let model :=
    match args.model with
    | some m => if m ≠ [] then m else envGetD env "PYGMALION_GEMINI_SVG_MODEL" DEFAULT_SVG_MODEL
    | none => envGetD env "PYGMALION_GEMINI_SVG_MODEL" DEFAULT_SVG_MODEL
  if ¬ pyEndsWith (str ".svg") (pyLower output_file) then
    ⟨⟨str "Error: output_file must end with .svg extension"⟩, fs, [], [], false⟩
  else if prompt = [] ∨ (pyStrip prompt).length < 3 then
    ⟨⟨str "Error: Prompt must be at least 3 characters long"⟩, fs, [], [], false⟩
  else
    let svg_prompt := buildSvgPrompt prompt style viewbox_size
    match world.generateText model svg_prompt with
    | .error e => ⟨⟨classifyGeminiSvgError model e⟩, fs, [], [], false⟩
    | .ok none =>
      ⟨⟨str "SVG generation failed. The model did not return content.\nTry rephrasing your prompt or try again later."⟩,
        fs, [], [], false⟩
    | .ok (some rawText) =>
      match extractSvgContent rawText with
      | none => ⟨svgInvalidOutputResponse, fs, [], [], false⟩
      | some svg_content =>
        let abs_output_file := resolveGeminiOutput env cwd output_file
        let dirs := makedirsFor abs_output_file
        let fs' := fsSet fs abs_output_file svg_content.length
        if fsExists fs' abs_output_file then
          let file_size := fsSize fs' abs_output_file
          ⟨⟨str "Successfully generated SVG with Gemini\nModel: " ++ model ++
            str "\nPrompt: " ++ prompt ++
            str "\nOutput: " ++ abs_output_file ++ str " (" ++ natToStrComma file_size ++
            str " bytes)\nStyle: " ++ style ++
            str "\nViewBox: 0 0 " ++ intToStr viewbox_size ++ str " " ++ intToStr viewbox_size⟩,
            fs', dirs, [abs_output_file], false⟩
        else
          ⟨⟨str "SVG generation completed but file save failed"⟩, fs', dirs, [abs_output_file], false⟩

/-! ### Subprocess model for the CLI-based adapters -/

/-- Outcome of one `subprocess.run` call: normal completion with exit code
and captured output, a `TimeoutExpired`, or a `FileNotFoundError` (binary
not installed). -/
inductive SubprocOutcome where
  | completed (returncode : Int) (stdout stderr : Str)
  | timedOut
  | binMissing
deriving Repr

/-- Oracle for the external world of the CLI adapters. -/
structure ProcWorld where
  /-- One blocking `subprocess.run` of the given argument vector against
  the given file system; yields the outcome and the file system after the
  child exits. -/
  run : List Str → FS → SubprocOutcome × FS
  /-- One non-blocking `subprocess.Popen`; `false` models
  `FileNotFoundError`. -/
  spawnOk : List Str → Bool
  /-- Python `shutil.which(binary)` (is the binary on the PATH). -/
  whichFound : String → Bool
  /-- WeasyPrint `HTML(filename=input).write_pdf(output, stylesheets)`;
  `Except.error` carries the message of a library exception. -/
  writePdf : Str → Str → List Str → FS → Except Str FS

/-- Observable outcome of one CLI adapter call: the response envelope, the
resulting file system, every external invocation attempted (both `run`
and `Popen`), and the directories the adapter created. -/
structure AdapterRun where
  resp : ToolResponse
  fs : FS
  calls : List (List Str)
  dirsCreated : List Str

/-- Python `", ".join(parts)` and friends. -/
def pyJoinStr (parts : List Str) (sep : Str) : Str := List.intercalate sep parts

/-! ### `pygmalion/tools/inkscape.py` -/

/-- The installation hint of the inkscape adapters with package-manager
lines. -/
def inkscapeInstallHint : Str :=
  str "Inkscape not found. Please install Inkscape:\n  sudo apt install inkscape  # Debian/Ubuntu\n  sudo dnf install inkscape  # Fedora\n  sudo pacman -S inkscape    # Arch"

/-- Arguments of the `export_svg` tool. -/
structure ExportSvgArgs where
  input_file : Str
  output_file : Str
  format : Option Str := none
  dpi : Option Int := none
  width : Option Int := none
  height : Option Int := none
  background : Option Str := none

/-- The inkscape argument vector built by `export_svg`. -/
def exportSvgCmd (args : ExportSvgArgs) : List Str :=
  let export_format := (args.format).getD (str "png")
  let dpi := (args.dpi).getD 96
  [str "inkscape", args.input_file, str "-o", args.output_file,
   str "--export-type=" ++ export_format]
  ++ (if dpi ≠ 0 ∧ export_format = str "png" then [str "--export-dpi=" ++ intToStr dpi] else [])
  ++ (match args.width with
      | some v => if v ≠ 0 then [str "--export-width=" ++ intToStr v] else []
      | none => [])
  ++ (match args.height with
      | some v => if v ≠ 0 then [str "--export-height=" ++ intToStr v] else []
      | none => [])
  ++ (match args.background with
      | some b => if b ≠ [] then [str "--export-background=" ++ b] else []
      | none => [])

/-- Embeds the `export_svg` tool body. -/
def export_svg (w : ProcWorld) (fs : FS) (args : ExportSvgArgs) : AdapterRun :=
  let input_file := args.input_file
  let output_file := args.output_file
  let export_format := (args.format).getD (str "png")
  if ¬ fsExists fs input_file then
    ⟨⟨str "Error: Input file not found: " ++ input_file⟩, fs, [], []⟩
  else
    let cmd := exportSvgCmd args
    match w.run cmd fs with
    | (.completed rc _out err, fs') =>
      if rc = 0 ∧ fsExists fs' output_file then
        let file_size := fsSize fs' output_file
        ⟨⟨str "Successfully exported to " ++ pyUpper export_format ++
          str "\nInput: " ++ input_file ++ str "\nOutput: " ++ output_file ++
          str "\nSize: " ++ natToStrComma file_size ++ str " bytes"⟩, fs', [cmd], []⟩
      else
        ⟨⟨str "Export failed: " ++ (if err ≠ [] then err else str "Unknown error")⟩, fs', [cmd], []⟩
    | (.timedOut, fs') =>
      ⟨⟨str "Export operation timed out (60 second limit)"⟩, fs', [cmd], []⟩
    | (.binMissing, _) =>
      ⟨⟨inkscapeInstallHint⟩, fs, [cmd], []⟩

/-- Arguments of the `open_in_inkscape` tool. -/
structure OpenInInkscapeArgs where
  file_path : Str

/-- Embeds the `open_in_inkscape` tool body. -/
def open_in_inkscape (w : ProcWorld) (fs : FS) (args : OpenInInkscapeArgs) : AdapterRun :=
  let file_path := args.file_path
  if ¬ fsExists fs file_path then
    ⟨⟨str "Error: File not found: " ++ file_path⟩, fs, [], []⟩
  else if ¬ pyEndsWith (str ".svg") (pyLower file_path) then
    ⟨⟨str "Warning: File may not be an SVG: " ++ file_path ++
      str "\nInkscape works best with SVG files."⟩, fs, [], []⟩
  else
    let cmd := [str "inkscape", file_path]
    if w.spawnOk cmd then
      ⟨⟨str "Opened in Inkscape GUI: " ++ file_path ++
        str "\nYou can now view and edit the design interactively.\nClose Inkscape when done, or save changes with Ctrl+S."⟩,
        fs, [cmd], []⟩
    else
      ⟨⟨inkscapeInstallHint⟩, fs, [cmd], []⟩

/-- Arguments of the `query_svg` tool. -/
structure QuerySvgArgs where
  file_path : Str
  query_type : Option Str := none

/-- Rendering of the object list in `query_svg` (total count, first ten
entries, elision note). -/
def querySvgObjectLines (stdoutText : Str) : List Str :=
  let lines := pySplitChar (pyStrip stdoutText) '\n'
  [str "Objects: " ++ natToStr lines.length ++ str " total"] ++
  (if lines.length > 10 then
    [str "First 10 objects:"] ++ (lines.take 10).map (fun l => str "  " ++ l) ++
    [str "  ... and " ++ natToStr (lines.length - 10) ++ str " more"]
  else lines.map (fun l => str "  " ++ l))

/-- Embeds the `query_svg` tool body. -/
def query_svg (w : ProcWorld) (fs : FS) (args : QuerySvgArgs) : AdapterRun :=
  let file_path := args.file_path
  let query_type := (args.query_type).getD (str "dimensions")
  if ¬ fsExists fs file_path then
    ⟨⟨str "Error: File not found: " ++ file_path⟩, fs, [], []⟩
  else
    let wCmd := [str "inkscape", file_path, str "--query-width"]
    let hCmd := [str "inkscape", file_path, str "--query-height"]
    let oCmd := [str "inkscape", file_path, str "--query-all"]
    let finish := fun (fs₂ : FS) (calls : List (List Str)) (dimLines : List Str) =>
      if query_type = str "objects" ∨ query_type = str "all" then
        match w.run oCmd fs₂ with
        | (.completed rc out _err, fs₃) =>
          let objLines := if rc = 0 then querySvgObjectLines out else []
          ⟨⟨str "SVG Query: " ++ file_path ++ str "\n" ++
            pyJoinChar (dimLines ++ objLines) '\n'⟩, fs₃, calls ++ [oCmd], []⟩
        | (.timedOut, fs₃) => ⟨⟨str "Query operation timed out"⟩, fs₃, calls ++ [oCmd], []⟩
        | (.binMissing, _) =>
          (⟨⟨str "Inkscape not found. Please install Inkscape."⟩, fs₂, calls ++ [oCmd], []⟩ : AdapterRun)
      else
        ⟨⟨str "SVG Query: " ++ file_path ++ str "\n" ++ pyJoinChar dimLines '\n'⟩, fs₂, calls, []⟩
    if query_type = str "dimensions" ∨ query_type = str "all" then
      match w.run wCmd fs with
      | (.completed rcW outW _errW, fs₁) =>
        (match w.run hCmd fs₁ with
        | (.completed rcH outH _errH, fs₂) =>
          let width := if rcW = 0 then pyStrip outW else str "?"
          let height := if rcH = 0 then pyStrip outH else str "?"
          finish fs₂ [wCmd, hCmd]
            [str "Dimensions: " ++ width ++ str " x " ++ height ++ str " (user units)"]
        | (.timedOut, fs₂) => ⟨⟨str "Query operation timed out"⟩, fs₂, [wCmd, hCmd], []⟩
        | (.binMissing, _) =>
          ⟨⟨str "Inkscape not found. Please install Inkscape."⟩, fs₁, [wCmd, hCmd], []⟩)
      | (.timedOut, fs₁) => ⟨⟨str "Query operation timed out"⟩, fs₁, [wCmd], []⟩
      | (.binMissing, _) =>
        ⟨⟨str "Inkscape not found. Please install Inkscape."⟩, fs, [wCmd], []⟩
    else
      finish fs [] []

/-- Arguments of the `convert_svg` tool. -/
structure ConvertSvgArgs where
  input_file : Str
  output_file : Str
  plain_svg : Option Bool := none

/-- Embeds the `convert_svg` tool body. -/
def convert_svg (w : ProcWorld) (fs : FS) (args : ConvertSvgArgs) : AdapterRun :=
  let input_file := args.input_file
  let output_file := args.output_file
  let plain_svg := (args.plain_svg).getD false
  if ¬ fsExists fs input_file then
    ⟨⟨str "Error: Input file not found: " ++ input_file⟩, fs, [], []⟩
  else
    let cmd := [str "inkscape", input_file, str "-o", output_file]
      ++ (if plain_svg then [str "--export-plain-svg"] else [])
    match w.run cmd fs with
    | (.completed rc _out err, fs') =>
      if rc = 0 ∧ fsExists fs' output_file then
        let input_size := fsSize fs' input_file
        let output_size := fsSize fs' output_file
        let savings : Int := (input_size : Int) - (output_size : Int)
        ⟨⟨str "Successfully converted SVG\nInput: " ++ input_file ++
          str " (" ++ natToStrComma input_size ++ str " bytes)\nOutput: " ++ output_file ++
          str " (" ++ natToStrComma output_size ++ str " bytes)\nSize change: " ++
          intToStrSignedComma savings ++ str " bytes"⟩, fs', [cmd], []⟩
      else
        ⟨⟨str "Conversion failed: " ++ (if err ≠ [] then err else str "Unknown error")⟩, fs', [cmd], []⟩
    | (.timedOut, fs') => ⟨⟨str "Conversion operation timed out"⟩, fs', [cmd], []⟩
    | (.binMissing, _) =>
      ⟨⟨str "Inkscape not found. Please install Inkscape."⟩, fs, [cmd], []⟩

/-! ### `pygmalion/tools/imagemagick.py` -/

/-- The installation hint of `image_resize` with package-manager lines. -/
def imagemagickInstallHint : Str :=
  str "ImageMagick not found. Please install ImageMagick:\n  sudo apt install imagemagick  # Debian/Ubuntu\n  sudo dnf install ImageMagick  # Fedora\n  sudo pacman -S imagemagick    # Arch"

/-- Arguments of the `image_resize` tool. -/
structure ImageResizeArgs where
  input_file : Str
  output_file : Str
  width : Option Int := none
  height : Option Int := none
  mode : Option Str := none
  quality : Option Int := none

/-- The resize-geometry options of `image_resize` (empty when both
dimensions are given but the mode is not one of the three handled
spellings). -/
def resizeGeometry (width height : Option Int) (mode : Str) : Option (List Str) :=
  match width, height with
  | some wv, some hv =>
    if wv ≠ 0 ∧ hv ≠ 0 then
      some (if mode = str "exact" then
        [str "-resize", intToStr wv ++ 'x' :: intToStr hv ++ [ '!' ]]
      else if mode = str "fit" then
        [str "-resize", intToStr wv ++ 'x' :: intToStr hv]
      else if mode = str "fill" then
        [str "-resize", intToStr wv ++ 'x' :: intToStr hv ++ [ '^' ],
         str "-gravity", str "center", str "-extent", intToStr wv ++ 'x' :: intToStr hv]
      else [])
    else if wv ≠ 0 then some [str "-resize", intToStr wv ++ [ 'x' ]]
    else if hv ≠ 0 then some [str "-resize", 'x' :: intToStr hv]
    else none
  | some wv, none =>
    if wv ≠ 0 then some [str "-resize", intToStr wv ++ [ 'x' ]] else none
  | none, some hv =>
    if hv ≠ 0 then some [str "-resize", 'x' :: intToStr hv] else none
  | none, none => none

/-- Embeds the `image_resize` tool body. -/
def image_resize (w : ProcWorld) (fs : FS) (args : ImageResizeArgs) : AdapterRun :=
  let input_file := args.input_file
  let output_file := args.output_file
  let mode := (args.mode).getD (str "fit")
  let quality := (args.quality).getD 85
  if ¬ fsExists fs input_file then
    ⟨⟨str "Error: Input file not found: " ++ input_file⟩, fs, [], []⟩
  else
    match resizeGeometry args.width args.height mode with
    | none => ⟨⟨str "Error: Must specify width and/or height"⟩, fs, [], []⟩
    | some geometry =>
      let cmd := [str "convert", input_file] ++ geometry ++
        [str "-quality", intToStr quality, output_file]
      match w.run cmd fs with
      | (.completed rc _out err, fs') =>
        if rc = 0 ∧ fsExists fs' output_file then
          let idCmd := [str "identify", str "-format", str "%wx%h", output_file]
          match w.run idCmd fs' with
          | (.completed rcId outId _errId, fs'') =>
            let output_dims := if rcId = 0 then pyStrip outId else str "unknown"
            let output_size := fsSize fs'' output_file
            ⟨⟨str "Successfully resized image\nInput: " ++ input_file ++
              str "\nOutput: " ++ output_file ++ str "\nDimensions: " ++ output_dims ++
              str "\nSize: " ++ natToStrComma output_size ++ str " bytes"⟩,
              fs'', [cmd, idCmd], []⟩
          | (.timedOut, fs'') => ⟨⟨str "Resize operation timed out"⟩, fs'', [cmd, idCmd], []⟩
          | (.binMissing, _) => ⟨⟨imagemagickInstallHint⟩, fs', [cmd, idCmd], []⟩
        else
          ⟨⟨str "Resize failed: " ++ (if err ≠ [] then err else str "Unknown error")⟩, fs', [cmd], []⟩
      | (.timedOut, fs') => ⟨⟨str "Resize operation timed out"⟩, fs', [cmd], []⟩
      | (.binMissing, _) => ⟨⟨imagemagickInstallHint⟩, fs, [cmd], []⟩

/-- Arguments of the `image_convert` tool. -/
structure ImageConvertArgs where
  input_file : Str
  output_file : Str
  quality : Option Int := none
  strip_metadata : Option Bool := none
  background : Option Str := none

/-- Embeds the `image_convert` tool body. -/
def image_convert (w : ProcWorld) (fs : FS) (args : ImageConvertArgs) : AdapterRun :=
  let input_file := args.input_file
  let output_file := args.output_file
  let quality := (args.quality).getD 85
  let strip_metadata := (args.strip_metadata).getD true
  if ¬ fsExists fs input_file then
    ⟨⟨str "Error: Input file not found: " ++ input_file⟩, fs, [], []⟩
  else
    let output_ext := pyLower (pySplitExt output_file).2
    let bgTruthy : Bool := match args.background with | some b => b ≠ [] | none => false
    let background :=
      if (output_ext = str ".jpg" ∨ output_ext = str ".jpeg") ∧ bgTruthy = false then
        some (str "white")
      else args.background
    let cmd := [str "convert", input_file]
      ++ (match background with
          | some b => if b ≠ [] then [str "-background", b, str "-flatten"] else []
          | none => [])
      ++ [str "-quality", intToStr quality]
      ++ (if strip_metadata then [str "-strip"] else [])
      ++ [output_file]
    match w.run cmd fs with
    | (.completed rc _out err, fs') =>
      if rc = 0 ∧ fsExists fs' output_file then
        let input_size := fsSize fs' input_file
        let output_size := fsSize fs' output_file
        let input_ext := (pySplitExt input_file).2
        ⟨⟨str "Successfully converted image\nInput: " ++ input_file ++
          str " (" ++ input_ext ++ str ", " ++ natToStrComma input_size ++
          str " bytes)\nOutput: " ++ output_file ++ str " (" ++ output_ext ++ str ", " ++
          natToStrComma output_size ++ str " bytes)\nSize change: " ++
          intToStrSignedComma ((output_size : Int) - (input_size : Int)) ++ str " bytes"⟩,
          fs', [cmd], []⟩
      else
        ⟨⟨str "Conversion failed: " ++ (if err ≠ [] then err else str "Unknown error")⟩, fs', [cmd], []⟩
    | (.timedOut, fs') => ⟨⟨str "Conversion operation timed out"⟩, fs', [cmd], []⟩
    | (.binMissing, _) =>
      ⟨⟨str "ImageMagick not found. Please install ImageMagick."⟩, fs, [cmd], []⟩

/-- Arguments of the `image_effects` tool. -/
structure ImageEffectsArgs where
  input_file : Str
  output_file : Str
  blur : Option PyFloat := none
  sharpen : Option PyFloat := none
  brightness : Option Int := none
  contrast : Option Int := none
  saturation : Option Int := none
  grayscale : Option Bool := none
  sepia : Option Int := none
  negate : Option Bool := none
  rotate : Option Int := none
  flip : Option Str := none

/-- The effect options and applied-effect descriptions accumulated by
`image_effects` (in source order). -/
def effectsOptions (args : ImageEffectsArgs) : List Str × List Str :=
  let step := fun (acc : List Str × List Str) (opts desc : List Str) =>
    (acc.1 ++ opts, acc.2 ++ desc)
  let acc : List Str × List Str := ([], [])
  let acc := match args.blur with
    | some v => if v.isTruthy then
        step acc [str "-blur", str "0x" ++ v.toStr] [str "blur(" ++ v.toStr ++ str ")"]
      else acc
    | none => acc
  let acc := match args.sharpen with
    | some v => if v.isTruthy then
        step acc [str "-sharpen", str "0x" ++ v.toStr] [str "sharpen(" ++ v.toStr ++ str ")"]
      else acc
    | none => acc
  let acc :=
    if args.brightness.isSome ∨ args.contrast.isSome then
      let b := (args.brightness).getD 0
      let c := (args.contrast).getD 0
      step acc [str "-brightness-contrast", intToStr b ++ 'x' :: intToStr c]
        [str "brightness(" ++ intToStr b ++ str "), contrast(" ++ intToStr c ++ str ")"]
    else acc
  let acc := match args.saturation with
    | some sat =>
      step acc [str "-modulate", str "100," ++ intToStr sat ++ str ",100"]
        [str "saturation(" ++ intToStr sat ++ str "%)"]
    | none => acc
  let acc := if (args.grayscale).getD false then
      step acc [str "-colorspace", str "Gray"] [str "grayscale"]
    else acc
  let acc := match args.sepia with
    | some v => if v ≠ 0 then
        step acc [str "-sepia-tone", intToStr v ++ [ '%' ]]
          [str "sepia(" ++ intToStr v ++ str "%)"]
      else acc
    | none => acc
  let acc := if (args.negate).getD false then
      step acc [str "-negate"] [str "negate"]
    else acc
  let acc := match args.rotate with
    | some v => if v ≠ 0 then
        step acc [str "-rotate", intToStr v] [str "rotate(" ++ intToStr v ++ str "Â°)"]
      else acc
    | none => acc
  let acc := match args.flip with
    | some m => if m ≠ [] then
        step acc
          (if m = str "horizontal" then [str "-flop"]
           else if m = str "vertical" then [str "-flip"]
           else if m = str "both" then [str "-flip", str "-flop"]
           else [])
          [str "flip(" ++ m ++ str ")"]
      else acc
    | none => acc
  acc

/-- Embeds the `image_effects` tool body. -/
def image_effects (w : ProcWorld) (fs : FS) (args : ImageEffectsArgs) : AdapterRun :=
  let input_file := args.input_file
  let output_file := args.output_file
  if ¬ fsExists fs input_file then
    ⟨⟨str "Error: Input file not found: " ++ input_file⟩, fs, [], []⟩
  else
    let (opts, effects_applied) := effectsOptions args
    if effects_applied = [] then
      ⟨⟨str "No effects specified. Use blur, sharpen, brightness, etc."⟩, fs, [], []⟩
    else
      let cmd := [str "convert", input_file] ++ opts ++ [output_file]
      match w.run cmd fs with
      | (.completed rc _out err, fs') =>
        if rc = 0 ∧ fsExists fs' output_file then
          let output_size := fsSize fs' output_file
          ⟨⟨str "Successfully applied effects\nInput: " ++ input_file ++
            str "\nOutput: " ++ output_file ++ str " (" ++ natToStrComma output_size ++
            str " bytes)\nEffects: " ++ pyJoinStr effects_applied (str ", ")⟩, fs', [cmd], []⟩
        else
          ⟨⟨str "Effects failed: " ++ (if err ≠ [] then err else str "Unknown error")⟩, fs', [cmd], []⟩
      | (.timedOut, fs') => ⟨⟨str "Effects operation timed out"⟩, fs', [cmd], []⟩
      | (.binMissing, _) =>
        ⟨⟨str "ImageMagick not found. Please install ImageMagick."⟩, fs, [cmd], []⟩

/-- Arguments of the `image_composite` tool. -/
structure ImageCompositeArgs where
  base_image : Str
  overlay_image : Str
  output_file : Str
  position : Option Str := none
  offset_x : Option Int := none
  offset_y : Option Int := none
  opacity : Option Int := none
  blend : Option Str := none
  resize_overlay : Option Str := none

/-- Embeds the `image_composite` tool body. -/
def image_composite (w : ProcWorld) (fs : FS) (args : ImageCompositeArgs) : AdapterRun :=
  let base_image := args.base_image
  let overlay_image := args.overlay_image
  let output_file := args.output_file
  let position := (args.position).getD (str "center")
  let offset_x := (args.offset_x).getD 0
  let offset_y := (args.offset_y).getD 0
  let opacity := (args.opacity).getD 100
  let blend := (args.blend).getD (str "over")
  if ¬ fsExists fs base_image then
    ⟨⟨str "Error: Base image not found: " ++ base_image⟩, fs, [], []⟩
  else if ¬ fsExists fs overlay_image then
    ⟨⟨str "Error: Overlay image not found: " ++ overlay_image⟩, fs, [], []⟩
  else
    let cmd := [str "convert", base_image, str "(", overlay_image]
      ++ (match args.resize_overlay with
          | some r => if r ≠ [] then [str "-resize", r] else []
          | none => [])
      ++ (if opacity < 100 then
            [str "-alpha", str "set", str "-channel", str "A",
             str "-evaluate", str "multiply", pyFloatStr opacity 100]
          else [])
      ++ [str ")", str "-gravity", pyCapitalize position, str "-compose", pyCapitalize blend]
      ++ (if offset_x ≠ 0 ∨ offset_y ≠ 0 then
            [str "-geometry", intToStrSigned offset_x ++ intToStrSigned offset_y]
          else [])
      ++ [str "-composite", output_file]
    match w.run cmd fs with
    | (.completed rc _out err, fs') =>
      if rc = 0 ∧ fsExists fs' output_file then
        let output_size := fsSize fs' output_file
        ⟨⟨str "Successfully composited images\nBase: " ++ base_image ++
          str "\nOverlay: " ++ overlay_image ++ str "\nOutput: " ++ output_file ++
          str " (" ++ natToStrComma output_size ++ str " bytes)\nPosition: " ++ position ++
          str ", Blend: " ++ blend⟩, fs', [cmd], []⟩
      else
        ⟨⟨str "Composite failed: " ++ (if err ≠ [] then err else str "Unknown error")⟩, fs', [cmd], []⟩
    | (.timedOut, fs') => ⟨⟨str "Composite operation timed out"⟩, fs', [cmd], []⟩
    | (.binMissing, _) =>
      ⟨⟨str "ImageMagick not found. Please install ImageMagick."⟩, fs, [cmd], []⟩

/-! ### `pygmalion/tools/gimp.py` -/

/-- Python `s.replace(sub, repl)` for a non-empty pattern, by fuelled
left-to-right scanning. -/
def pyReplaceStrGo : Nat → Str → Str → Str → Str
  | 0, s, _, _ => s
  | _ + 1, [], _, _ => []
  | fuel + 1, c :: rest, sub, repl =>
    if pyStartsWith sub (c :: rest) then
      repl ++ pyReplaceStrGo fuel ((c :: rest).drop sub.length) sub repl
    else
      c :: pyReplaceStrGo fuel rest sub repl

/-- Python `s.replace(sub, repl)` (non-empty `sub`; the program never
replaces an empty pattern). -/
def pyReplaceStr (s sub repl : Str) : Str :=
  if sub = [] then s else pyReplaceStrGo s.length s sub repl

/-- Value of one hexadecimal digit. -/
def hexDigitVal (c : Char) : Option Nat :=
  if '0' ≤ c ∧ c ≤ '9' then some (c.toNat - '0'.toNat)
  else if 'a' ≤ c ∧ c ≤ 'f' then some (c.toNat - 'a'.toNat + 10)
  else if 'A' ≤ c ∧ c ≤ 'F' then some (c.toNat - 'A'.toNat + 10)
  else none

/-- Python `int(s, 16)`, `none` modelling the `ValueError` on an empty or
non-hexadecimal string. -/
def pyHexToNat (s : Str) : Option Nat :=
  if s = [] then none
  else s.foldl (fun acc c => do
    let a ← acc
    let d ← hexDigitVal c
    pure (a * 16 + d)) (some 0)

/-- The installation hint of the GIMP adapters with package-manager
lines. -/
def gimpInstallHint : Str :=
  str "GIMP not found. Please install GIMP:\n  sudo apt install gimp  # Debian/Ubuntu\n  sudo dnf install gimp  # Fedora\n  sudo pacman -S gimp    # Arch"

/-- Embeds `_get_save_command`: the Script-Fu save call matching the
output extension. -/
def get_save_command (output_file : Str) (quality : PyFloat := ⟨9, 10⟩) : Str :=
  let output_ext := pyLower (pySplitExt output_file).2
  if output_ext = str ".jpg" ∨ output_ext = str ".jpeg" then
    str "(file-jpeg-save RUN-NONINTERACTIVE image (car (gimp-image-get-active-layer image)) \"" ++
    output_file ++ str "\" \"" ++ output_file ++ str "\" " ++ quality.toStr ++ str " 0 0 0 \"\" 0 0 0 0)"
  else if output_ext = str ".png" then
    str "(file-png-save RUN-NONINTERACTIVE image (car (gimp-image-get-active-layer image)) \"" ++
    output_file ++ str "\" \"" ++ output_file ++ str "\" 0 9 1 1 1 1 1)"
  else if output_ext = str ".gif" then
    str "(file-gif-save RUN-NONINTERACTIVE image (car (gimp-image-get-active-layer image)) \"" ++
    output_file ++ str "\" \"" ++ output_file ++ str "\" 0 0 0 0)"
  else if output_ext = str ".tiff" then
    str "(file-tiff-save RUN-NONINTERACTIVE image (car (gimp-image-get-active-layer image)) \"" ++
    output_file ++ str "\" \"" ++ output_file ++ str "\" 0)"
  else
    str "(gimp-file-save RUN-NONINTERACTIVE image (car (gimp-image-get-active-layer image)) \"" ++
    output_file ++ str "\" \"" ++ output_file ++ str "\")"

/-- Result dictionary of `_run_gimp_batch`. -/
inductive GimpBatchResult where
  | ok (stdout stderr : Str)
  | failed (error : Str)

/-- Embeds `_run_gimp_batch` (the exit code of the child is not
inspected by the source). -/
def run_gimp_batch (w : ProcWorld) (fs : FS) (batch_script : Str) :
    GimpBatchResult × FS × List (List Str) :=
  let cmd := [str "gimp", str "-i", str "-b", batch_script, str "-b", str "(gimp-quit 0)"]
  match w.run cmd fs with
  | (.completed _rc out err, fs') => (.ok out err, fs', [cmd])
  | (.timedOut, fs') => (.failed (str "GIMP operation timed out"), fs', [cmd])
  | (.binMissing, _) => (.failed gimpInstallHint, fs, [cmd])

/-- The `let*` wrapper of `_execute_gimp_script` around a Script-Fu
fragment. -/
def gimpScriptWrapper (input_file script flatten_cmd save_cmd : Str) : Str :=
  str "\n(let* (\n    (image (car (gimp-file-load RUN-NONINTERACTIVE \"" ++ input_file ++
  str "\" \"" ++ input_file ++
  str "\")))\n    (drawable (car (gimp-image-get-active-layer image)))\n)\n    " ++
  script ++ str "\n    " ++ flatten_cmd ++ str "\n    " ++ save_cmd ++
  str "\n    (gimp-image-delete image)\n)\n"

/-- Embeds `_execute_gimp_script`. -/
def execute_gimp_script (w : ProcWorld) (fs : FS)
    (input_file output_file script : Str) (flatten : Bool := true) : AdapterRun :=
  if ¬ fsExists fs input_file then
    ⟨⟨str "Error: Input file not found: " ++ input_file⟩, fs, [], []⟩
  else
    let save_cmd := get_save_command output_file
    let flatten_cmd := if flatten then str "(gimp-image-flatten image)" else []
    let batch_script := gimpScriptWrapper input_file script flatten_cmd save_cmd
    match run_gimp_batch w fs batch_script with
    | (.failed e, fs', calls) =>
      ⟨⟨str "GIMP script failed: " ++ e⟩, fs', calls, []⟩
    | (.ok out err, fs', calls) =>
      if fsExists fs' output_file then
        let output_size := fsSize fs' output_file
        ⟨⟨str "Successfully executed GIMP script\nInput: " ++ input_file ++
          str "\nOutput: " ++ output_file ++ str " (" ++ natToStrComma output_size ++
          str " bytes)"⟩, fs', calls, []⟩
      else
        ⟨⟨str "GIMP script failed: " ++ (if err ≠ [] then err else out)⟩, fs', calls, []⟩

/-- Arguments of the `open_in_gimp` tool. -/
structure OpenInGimpArgs where
  file_path : Str

/-- Embeds the `open_in_gimp` tool body. -/
def open_in_gimp (w : ProcWorld) (fs : FS) (args : OpenInGimpArgs) : AdapterRun :=
  let file_path := args.file_path
  if ¬ fsExists fs file_path then
    ⟨⟨str "Error: File not found: " ++ file_path⟩, fs, [], []⟩
  else
    let cmd := [str "gimp", file_path]
    if w.spawnOk cmd then
      ⟨⟨str "Opened " ++ file_path ++ str " in GIMP"⟩, fs, [cmd], []⟩
    else
      ⟨⟨gimpInstallHint⟩, fs, [cmd], []⟩

/-- Arguments of the `gimp_script` tool. -/
structure GimpScriptArgs where
  input_file : Str
  output_file : Str
  script : Str
  flatten : Option Bool := none

/-- Embeds the `gimp_script` tool body. -/
def gimp_script (w : ProcWorld) (fs : FS) (args : GimpScriptArgs) : AdapterRun :=
  execute_gimp_script w fs args.input_file args.output_file args.script
    ((args.flatten).getD true)

/-- Arguments of the `gimp_filter` tool. -/
structure GimpFilterArgs where
  input_file : Str
  output_file : Str
  filter : Str
  strength : Option Int := none

/-- The Script-Fu fragment of each `gimp_filter` filter. -/
def gimpFilterCommand (filterName : Str) (strength : Int) : Option Str :=
  if filterName = str "gaussian-blur" then
    some (str "(plug-in-gauss RUN-NONINTERACTIVE image drawable " ++
      pyFloatStr strength 2 ++ str " " ++ pyFloatStr strength 2 ++ str " 0)")
  else if filterName = str "motion-blur" then
    some (str "(plug-in-mblur RUN-NONINTERACTIVE image drawable 0 " ++
      intToStr strength ++ str " 45 0 0)")
  else if filterName = str "unsharp-mask" then
    some (str "(plug-in-unsharp-mask RUN-NONINTERACTIVE image drawable " ++
      pyFloatStr strength 20 ++ str " " ++ pyFloatStr strength 100 ++ str " 0)")
  else none

/-- Embeds the `gimp_filter` tool body. -/
def gimp_filter (w : ProcWorld) (fs : FS) (args : GimpFilterArgs) : AdapterRun :=
  let input_file := args.input_file
  let output_file := args.output_file
  let filter_name := args.filter
  let strength := (args.strength).getD 50
  if ¬ fsExists fs input_file then
    ⟨⟨str "Error: Input file not found: " ++ input_file⟩, fs, [], []⟩
  else
    match gimpFilterCommand filter_name strength with
    | none => ⟨⟨str "Unknown filter: " ++ filter_name⟩, fs, [], []⟩
    | some script_cmd =>
      let result := execute_gimp_script w fs input_file output_file script_cmd true
      if pyContainsStr result.resp.text (str "Successfully") then
        { result with resp := ⟨pyReplaceStr result.resp.text (str "GIMP script")
            (str "GIMP filter (" ++ filter_name ++ str ", strength=" ++ intToStr strength ++ str ")")⟩ }
      else result

/-- Arguments of the `gimp_text` tool. -/
structure GimpTextArgs where
  input_file : Str
  output_file : Str
  text : Str
  font : Option Str := none
  size : Option Int := none
  color : Option Str := none
  x : Option Int := none
  y : Option Int := none

/-- The colour-name table of `gimp_text`. -/
def gimpColorMap (c : Str) : Nat × Nat × Nat :=
  if c = str "black" then (0, 0, 0)
  else if c = str "white" then (255, 255, 255)
  else if c = str "red" then (255, 0, 0)
  else if c = str "green" then (0, 255, 0)
  else if c = str "blue" then (0, 0, 255)
  else if c = str "yellow" then (255, 255, 0)
  else if c = str "cyan" then (0, 255, 255)
  else if c = str "magenta" then (255, 0, 255)
  else (0, 0, 0)

/-- Embeds the `gimp_text` tool body. -/
def gimp_text (w : ProcWorld) (fs : FS) (args : GimpTextArgs) : AdapterRun :=
  let input_file := args.input_file
  let output_file := args.output_file
  let text := pyReplaceCharTwo (pyReplaceCharTwo args.text '"' '\\' '"') '\x27' '\\' '\x27'
  let font := (args.font).getD (str "Sans")
  let size := (args.size).getD 32
  let color := (args.color).getD (str "#000000")
  let x := (args.x).getD 10
  let y := (args.y).getD 10
  if ¬ fsExists fs input_file then
    ⟨⟨str "Error: Input file not found: " ++ input_file⟩, fs, [], []⟩
  else
    let rgb : Option (Nat × Nat × Nat) :=
      if pyStartsWith (str "#") color then
        match pyHexToNat (pySlice color 1 3), pyHexToNat (pySlice color 3 5),
            pyHexToNat (pySlice color 5 7) with
        | some r, some g, some b => some (r, g, b)
        | _, _, _ => none
      else some (gimpColorMap (pyLower color))
    match rgb with
    | none =>
      -- `int(_, 16)` raised a `ValueError`, caught by the generic handler
      ⟨⟨str "GIMP text error: invalid literal for int() with base 16"⟩, fs, [], []⟩
    | some (r, g, b) =>
      let script :=
        str "\n(gimp-context-set-foreground \x27(" ++ natToStr r ++ str " " ++
        natToStr g ++ str " " ++ natToStr b ++
        str "))\n(gimp-text-fontname image drawable " ++ intToStr x ++ str " " ++
        intToStr y ++ str " \"" ++ text ++ str "\" 0 TRUE " ++ intToStr size ++
        str " PIXELS \"" ++ font ++ str "\")\n"
      let result := execute_gimp_script w fs input_file output_file script true
      if pyContainsStr result.resp.text (str "Successfully") then
        let display_text := if text.length > 20 then text.take 20 ++ str "..." else text
        { result with resp := ⟨pyReplaceStr result.resp.text (str "GIMP script")
            (str "GIMP text (\x27" ++ display_text ++ str "\x27)")⟩ }
      else result

/-- Arguments of the `gimp_composite` tool. -/
structure GimpCompositeArgs where
  base_image : Str
  overlay_image : Str
  output_file : Str
  blend_mode : Option Str := none
  opacity : Option Int := none
  offset_x : Option Int := none
  offset_y : Option Int := none

/-- The blend-mode table of `gimp_composite`. -/
def gimpBlendConstant (b : Str) : Str :=
  if b = str "normal" then str "LAYER-MODE-NORMAL"
  else if b = str "multiply" then str "LAYER-MODE-MULTIPLY"
  else if b = str "screen" then str "LAYER-MODE-SCREEN"
  else if b = str "overlay" then str "LAYER-MODE-OVERLAY"
  else if b = str "soft-light" then str "LAYER-MODE-SOFTLIGHT"
  else if b = str "hard-light" then str "LAYER-MODE-HARDLIGHT"
  else if b = str "difference" then str "LAYER-MODE-DIFFERENCE"
  else if b = str "addition" then str "LAYER-MODE-ADDITION"
  else if b = str "subtract" then str "LAYER-MODE-SUBTRACT"
  else if b = str "darken-only" then str "LAYER-MODE-DARKEN-ONLY"
  else if b = str "lighten-only" then str "LAYER-MODE-LIGHTEN-ONLY"
  else str "LAYER-MODE-NORMAL"

/-- Embeds the `gimp_composite` tool body. -/
def gimp_composite (w : ProcWorld) (fs : FS) (args : GimpCompositeArgs) : AdapterRun :=
  let base_image := args.base_image
  let overlay_image := args.overlay_image
  let output_file := args.output_file
  let blend_mode := (args.blend_mode).getD (str "normal")
  let opacity := (args.opacity).getD 100
  let offset_x := (args.offset_x).getD 0
  let offset_y := (args.offset_y).getD 0
  if ¬ fsExists fs base_image then
    ⟨⟨str "Error: Base image not found: " ++ base_image⟩, fs, [], []⟩
  else if ¬ fsExists fs overlay_image then
    ⟨⟨str "Error: Overlay image not found: " ++ overlay_image⟩, fs, [], []⟩
  else
    let gimp_blend_mode := gimpBlendConstant blend_mode
    let save_cmd := get_save_command output_file
    let batch_script :=
      str "\n(let* (\n    (image (car (gimp-file-load RUN-NONINTERACTIVE \"" ++ base_image ++
      str "\" \"" ++ base_image ++
      str "\")))\n    (base-layer (car (gimp-image-get-active-layer image)))\n    (overlay (car (gimp-file-load-layer RUN-NONINTERACTIVE image \"" ++
      overlay_image ++
      str "\")))\n)\n    (gimp-image-insert-layer image overlay 0 0)\n    (gimp-layer-set-mode overlay " ++
      gimp_blend_mode ++ str ")\n    (gimp-layer-set-opacity overlay " ++ intToStr opacity ++
      str ")\n    (gimp-layer-set-offsets overlay " ++ intToStr offset_x ++ str " " ++
      intToStr offset_y ++ str ")\n    (gimp-image-flatten image)\n    " ++ save_cmd ++
      str "\n    (gimp-image-delete image)\n)\n"
    match run_gimp_batch w fs batch_script with
    | (.failed e, fs', calls) =>
      ⟨⟨str "GIMP composite failed: " ++ e⟩, fs', calls, []⟩
    | (.ok out err, fs', calls) =>
      if fsExists fs' output_file then
        let output_size := fsSize fs' output_file
        ⟨⟨str "Successfully composited images\nBase: " ++ base_image ++
          str "\nOverlay: " ++ overlay_image ++ str "\nOutput: " ++ output_file ++
          str " (" ++ natToStrComma output_size ++ str " bytes)\nBlend: " ++ blend_mode ++
          str ", Opacity: " ++ intToStr opacity ++ str "%"⟩, fs', calls, []⟩
      else
        ⟨⟨str "GIMP composite failed: " ++ (if err ≠ [] then err else out)⟩, fs', calls, []⟩

/-! ### `pygmalion/tools/weasyprint.py` -/

/-- Arguments of the `html_to_pdf` tool. -/
structure HtmlToPdfArgs where
  input_file : Str
  output_file : Str
  css_file : Option Str := none
  page_size : Option Str := none
  orientation : Option Str := none

/-- Embeds the `html_to_pdf` tool body (module flag `WEASYPRINT_AVAILABLE`
is the `available` parameter). -/
def html_to_pdf (available : Bool) (w : ProcWorld) (fs : FS) (args : HtmlToPdfArgs) : AdapterRun :=
  if ¬ available then
    ⟨⟨str "WeasyPrint not installed. Install it with:\n  pip install weasyprint\nOr install Pygmalion with all dependencies:\n  pip install -e \".[all]\""⟩, fs, [], []⟩
  else
    let input_file := args.input_file
    let output_file := args.output_file
    let page_size := (args.page_size).getD (str "letter")
    let orientation := (args.orientation).getD (str "portrait")
    let cssTruthy : Bool := match args.css_file with | some c => c ≠ [] | none => false
    if ¬ fsExists fs input_file then
      ⟨⟨str "Error: Input file not found: " ++ input_file⟩, fs, [], []⟩
    else if cssTruthy ∧ ¬ fsExists fs ((args.css_file).getD []) then
      ⟨⟨str "Error: CSS file not found: " ++ (args.css_file).getD []⟩, fs, [], []⟩
    else
      let stylesheets :=
        (if args.page_size.isSome ∨ args.orientation.isSome then
          [str "\n            @page \x7b\n                size: " ++ page_size ++ str " " ++
           orientation ++ str ";\n            \x7d\n            "]
        else [])
        ++ (if cssTruthy then [(args.css_file).getD []] else [])
      match w.writePdf input_file output_file stylesheets fs with
      | .error e => ⟨⟨str "PDF conversion error: " ++ e⟩, fs, [], []⟩
      | .ok fs' =>
        if fsExists fs' output_file then
          let output_size := fsSize fs' output_file
          ⟨⟨str "Successfully converted HTML to PDF\nInput: " ++ input_file ++
            str "\nOutput: " ++ output_file ++ str " (" ++ natToStrComma output_size ++
            str " bytes)\nPage size: " ++ page_size ++ str " " ++ orientation⟩, fs', [], []⟩
        else
          ⟨⟨str "PDF conversion failed: Output file not created"⟩, fs', [], []⟩

/-! ### `pygmalion/tools/potrace.py` -/

/-- Arguments of the `trace_bitmap` tool. -/
structure TraceBitmapArgs where
  input_file : Str
  output_file : Str
  turdsize : Option Int := none
  turnpolicy : Option Str := none
  alphamax : Option PyFloat := none
  opttolerance : Option PyFloat := none
  tight_bounds : Option Bool := none

/-- The message of a Python `FileNotFoundError` raised by
`subprocess.run` for a missing binary, as caught by the generic handler of
`trace_bitmap`. -/
def errnoMissingBinary (bin : Str) : Str :=
  str "[Errno 2] No such file or directory: \x27" ++ bin ++ str "\x27"

/-- The timeout envelope of `trace_bitmap`. -/
def traceTimeoutResponse : ToolResponse :=
  ⟨str "Tracing timeout exceeded (60 seconds). Try a smaller image or simpler settings."⟩

/-- Embeds the `trace_bitmap` tool body; `tmpdir` is the path of the
`tempfile.TemporaryDirectory`. -/
def trace_bitmap (w : ProcWorld) (fs : FS) (tmpdir : Str) (args : TraceBitmapArgs) : AdapterRun :=
  let input_file := args.input_file
  let output_file := args.output_file
  let turdsize := (args.turdsize).getD 2
  let turnpolicy := (args.turnpolicy).getD (str "minority")
  let alphamax := (args.alphamax).getD ⟨1, 1⟩
  let opttolerance := (args.opttolerance).getD ⟨1, 5⟩
  let tight_bounds := (args.tight_bounds).getD true
  if ¬ pyEndsWith (str ".svg") (pyLower output_file) then
    ⟨⟨str "Error: output_file must end with .svg extension"⟩, fs, [], []⟩
  else if ¬ fsExists fs input_file then
    ⟨⟨str "Error: Input file not found: " ++ input_file⟩, fs, [], []⟩
  else if ¬ w.whichFound "potrace" then
    ⟨⟨str "Potrace not found. Install it with:\n  Ubuntu/Debian: sudo apt install potrace\n  macOS: brew install potrace\n  Arch: sudo pacman -S potrace"⟩, fs, [], []⟩
  else if ¬ w.whichFound "convert" then
    ⟨⟨str "ImageMagick not found. Install it with:\n  Ubuntu/Debian: sudo apt install imagemagick\n  macOS: brew install imagemagick\n  Arch: sudo pacman -S imagemagick"⟩, fs, [], []⟩
  else
    let bmp_file := pyJoinPath tmpdir (str "input.bmp")
    let convert_cmd := [str "convert", input_file, bmp_file]
    match w.run convert_cmd fs with
    | (.timedOut, fs₁) => ⟨traceTimeoutResponse, fs₁, [convert_cmd], []⟩
    | (.binMissing, _) =>
      ⟨⟨str "Bitmap tracing error: " ++ errnoMissingBinary (str "convert")⟩, fs, [convert_cmd], []⟩
    | (.completed rcConv _outConv errConv, fs₁) =>
      if rcConv ≠ 0 then
        ⟨⟨str "ImageMagick conversion failed.\nError: " ++ errConv ++
          str "\nCommand: " ++ pyJoinStr convert_cmd (str " ")⟩, fs₁, [convert_cmd], []⟩
      else
        let potrace_cmd := [str "potrace", str "--svg", str "-o", output_file,
          str "--turdsize", intToStr turdsize, str "--turnpolicy", turnpolicy,
          str "--alphamax", alphamax.toStr, str "--opttolerance", opttolerance.toStr,
          bmp_file]
        match w.run potrace_cmd fs₁ with
        | (.timedOut, fs₂) => ⟨traceTimeoutResponse, fs₂, [convert_cmd, potrace_cmd], []⟩
        | (.binMissing, _) =>
          ⟨⟨str "Bitmap tracing error: " ++ errnoMissingBinary (str "potrace")⟩,
            fs₁, [convert_cmd, potrace_cmd], []⟩
        | (.completed rcPot _outPot errPot, fs₂) =>
          if rcPot ≠ 0 then
            ⟨⟨str "Potrace tracing failed.\nError: " ++ errPot ++
              str "\nCommand: " ++ pyJoinStr potrace_cmd (str " ")⟩,
              fs₂, [convert_cmd, potrace_cmd], []⟩
          else if fsExists fs₂ output_file then
            let settings := str "Settings: turdsize=" ++ intToStr turdsize ++
              str ", turnpolicy=" ++ turnpolicy ++ str ", alphamax=" ++ alphamax.toStr ++
              str ", opttolerance=" ++ opttolerance.toStr
            let success := fun (fsF : FS) (calls : List (List Str)) (optMsg : Str) =>
              let file_size := fsSize fsF output_file
              (⟨⟨str "Successfully traced bitmap to SVG" ++ optMsg ++
                str "\nInput: " ++ input_file ++ str "\nOutput: " ++ output_file ++
                str " (" ++ natToStrComma file_size ++ str " bytes)\n" ++ settings⟩,
                fsF, calls, []⟩ : AdapterRun)
            if tight_bounds then
              if w.whichFound "inkscape" then
                let temp_svg := pyJoinPath tmpdir (str "optimized.svg")
                let inkscape_cmd := [str "inkscape", output_file,
                  str "--export-area-drawing", str "--export-plain-svg",
                  str "--export-filename=" ++ temp_svg]
                match w.run inkscape_cmd fs₂ with
                | (.timedOut, fs₃) =>
                  ⟨traceTimeoutResponse, fs₃, [convert_cmd, potrace_cmd, inkscape_cmd], []⟩
                | (.binMissing, _) =>
                  ⟨⟨str "Bitmap tracing error: " ++ errnoMissingBinary (str "inkscape")⟩,
                    fs₂, [convert_cmd, potrace_cmd, inkscape_cmd], []⟩
                | (.completed rcInk _outInk _errInk, fs₃) =>
                  if rcInk = 0 ∧ fsExists fs₃ temp_svg then
                    let fs₄ := fsSet fs₃ output_file (fsSize fs₃ temp_svg)
                    success fs₄ [convert_cmd, potrace_cmd, inkscape_cmd]
                      (str " (viewBox optimized)")
                  else
                    success fs₃ [convert_cmd, potrace_cmd, inkscape_cmd]
                      (str " (viewBox optimization failed, using original)")
              else
                success fs₂ [convert_cmd, potrace_cmd]
                  (str " (Inkscape not found, skipping viewBox optimization)")
            else
              success fs₂ [convert_cmd, potrace_cmd] []
          else
            ⟨⟨str "Potrace completed but output file was not created"⟩,
              fs₂, [convert_cmd, potrace_cmd], []⟩

/-! ### `pygmalion/agent.py` — the `DesignSession` wrapper -/

/-- Content blocks of the vendor SDK message hierarchy (`TextBlock`,
`ToolUseBlock`, `ToolResultBlock`); `other` covers any further block
kind, which `send` ignores. -/
inductive Block where
  | text (s : Str)
  | toolUse (name : String) (input : String → Option Str)
  | toolResult (content : Str)
  | other

/-- Messages of the reply stream (`AssistantMessage`, `UserMessage`, and
anything else). -/
inductive Message where
  | assistant (content : List Block)
  | user (content : List Block)
  | otherMsg

/-- The typed events `send` yields: `("text", chunk)`,
`("tool_use", name)`, `("tool_result", content)`.  The third kind exists
in the documented event vocabulary; whether `send` ever produces it is a
theorem, not an assumption. -/
inductive Event where
  | text (s : Str)
  | toolUse (name : String)
  | toolResult (s : Str)

/-- One observable action of a `send` call, in execution order: an event
yielded to the caller, a Grok image download performed mid-stream, or one
invocation of the `_auto_open_file` side effect. -/
inductive SendAction where
  | yieldEv (e : Event)
  | download (url : Str) (path : Str)
  | openFile (path : Str)

/-- Python exception classes surfaced by the session wrapper. -/
inductive PyErrorKind where
  | runtimeError
  | typeError
  | connectionError
deriving DecidableEq, Repr

/-- An exception value: its class and message. -/
structure PyError where
  kind : PyErrorKind
  msg : Str
deriving DecidableEq, Repr

/-- The `RuntimeError` raised by `send` on a disconnected session. -/
def notConnectedError : PyError :=
  ⟨.runtimeError,
   str "Session not connected. Use \x27async with DesignSession()\x27 or call connect() first."⟩

/-- The `DesignSession` attributes the claims observe. -/
structure SessionState where
  workingDir : Option Str
  allowedTools : List String
  autonomyMode : AutonomyMode
  model : String
  modelAlias : String
  hasClient : Bool
  messageCount : Nat
  isConnected : Bool

/-- The `AVAILABLE_MODELS` alias table. -/
def AVAILABLE_MODELS : List (String × String) :=
  [("opus", "claude-opus-4-5-20251101"),
   ("sonnet", "claude-sonnet-4-20250514"),
   ("haiku", "claude-3-5-haiku-20241022")]

/-- The `DEFAULT_MODEL` constant. -/
def DEFAULT_MODEL : String := "sonnet"

/-- The model-resolution logic of `__init__`: aliases map to full ids,
anything else is taken as a full id and reverse-looked-up for display. -/
def resolveModel (model : Option String) : String × String :=
  let model_key := match model with
    | some m => if m ≠ "" then m else DEFAULT_MODEL
    | none => DEFAULT_MODEL
  match (AVAILABLE_MODELS.find? (fun kv => kv.1 = model_key)) with
  | some kv => (kv.2, model_key)
  | none =>
    (model_key,
     match (AVAILABLE_MODELS.find? (fun kv => kv.2 = model_key)) with
     | some kv => kv.1
     | none => model_key)

/-- Embeds `DesignSession.__init__` (Python `or`-defaulting included: an
explicitly passed empty tool list falls back to `DEFAULT_TOOLS`). -/
def mkDesignSession (env : Env) (working_dir : Option Str := none)
    (allowed_tools : Option (List String) := none)
    (autonomy_mode : Option AutonomyMode := none)
    (model : Option String := none) : SessionState :=
  let tools := match allowed_tools with
    | some l => if l ≠ [] then l else DEFAULT_TOOLS env
    | none => DEFAULT_TOOLS env
  let mode := match autonomy_mode with
    | some m => m
    | none => get_default_autonomy_mode env
  let resolved := resolveModel model
  { workingDir := working_dir
    allowedTools := tools
    autonomyMode := mode
    model := resolved.1
    modelAlias := resolved.2
    hasClient := false
    messageCount := 0
    isConnected := false }

/-- Outcome of `DesignSession.connect`. -/
inductive ConnectResult where
  | ok (s : SessionState) (env : Env)
  | error (e : PyError) (s : SessionState) (env : Env)

/-- Embeds `DesignSession.connect`.  After the idempotence guard, the very
first statement is `os.environ["PYGMALION_OUTPUT_DIR"] = self._working_dir`;
`os.environ` accepts only `str` values, so a `None` working directory
raises `TypeError: str expected, not NoneType` there.  The MCP-server
registry construction has no further observable effect on the session
state; `transportOk` models whether `ClaudeSDKClient.connect()`
succeeds. -/
def connect (s : SessionState) (env : Env) (transportOk : Bool) : ConnectResult :=
  if s.isConnected then .ok s env
  else
    match s.workingDir with
    | none => .error ⟨.typeError, str "str expected, not NoneType"⟩ s env
    | some wd =>
      let env' := envSet env "PYGMALION_OUTPUT_DIR" wd
      if transportOk then
        .ok { s with hasClient := true, isConnected := true } env'
      else
        .error ⟨.connectionError, str "transport could not be established"⟩
          { s with hasClient := true } env'

/-- Embeds `DesignSession.disconnect` (a no-op unless a client exists and
the session is connected). -/
def disconnect (s : SessionState) : SessionState :=
  if s.hasClient ∧ s.isConnected then { s with isConnected := false } else s

/-- Oracle for the Grok tool-result handling inside `send`:
`json.loads(text).get("images", [])`, and the byte count fetched by
`urllib.request.urlopen`. -/
structure SendWorld where
  parseImages : Str → List Str
  fetchSize : Str → Nat

/-- Python `if file_path:`-style truthiness over the first matching
parameter from `["output_file", "output_path", "file_path"]`. -/
def firstTruthy : List (Option Str) → Option Str
  | [] => none
  | some fp :: rest => if fp ≠ [] then some fp else firstTruthy rest
  | none :: rest => firstTruthy rest

/-- The created-file tracking of `send` for one `ToolUseBlock`
(lines 654-709): `Write` always tracks, `Edit` tracks only paths not yet
existing, the Gemini image tool tracks its `output_file`, and the
inkscape/imagemagick/gimp MCP tools track the first truthy of
`output_file`/`output_path`/`file_path`. -/
def trackToolUse (wd cwd : Str) (fs : FS) (name : String)
    (input : String → Option Str) : List Str :=
  if name = "Write" then
    match firstTruthy [input "file_path"] with
    | some fp => [pyAbsPath cwd (pyJoinPath wd fp)]
    | none => []
  else if name = "Edit" then
    match firstTruthy [input "file_path"] with
    | some fp =>
      let abs := pyAbsPath cwd (pyJoinPath wd fp)
      if ¬ fsExists fs abs then [abs] else []
    | none => []
  else if name = "mcp__gemini__gemini_generate_image" then
    match firstTruthy [input "output_file"] with
    | some fp => [pyAbsPath cwd (pyJoinPath wd fp)]
    | none => []
  else if pyStartsWith (str "mcp__inkscape__") name.toList then
    match firstTruthy [input "output_file", input "output_path", input "file_path"] with
    | some fp => [pyAbsPath cwd (pyJoinPath wd fp)]
    | none => []
  else if pyStartsWith (str "mcp__imagemagick__") name.toList ∨
      pyStartsWith (str "mcp__gimp__") name.toList then
    match firstTruthy [input "output_file", input "output_path", input "file_path"] with
    | some fp => [pyAbsPath cwd (pyJoinPath wd fp)]
    | none => []
  else []

/-- Processing of the blocks of one `AssistantMessage`: yielded events,
tracked files, and the `last_tool_used` value afterwards. -/
def procBlocks (wd cwd : Str) (fs : FS) :
    Option String → List Block → List SendAction × List Str × Option String
  | lastTool, [] => ([], [], lastTool)
  | lastTool, b :: rest =>
    match b with
    | .text t =>
      let (a, f, lt) := procBlocks wd cwd fs lastTool rest
      (SendAction.yieldEv (.text t) :: a, f, lt)
    | .toolUse name input =>
      let tracked := trackToolUse wd cwd fs name input
      let (a, f, lt) := procBlocks wd cwd fs (some name) rest
      (SendAction.yieldEv (.toolUse name) :: a, tracked ++ f, lt)
    | _ =>
      procBlocks wd cwd fs lastTool rest

/-- The per-URL download loop of the Grok branch: each image is saved as
`grok_image_{i}{ext}` under the working directory. -/
def grokDownloads (wd : Str) (w : SendWorld) :
    FS → Nat → List Str → List SendAction × List Str × FS
  | fs, _, [] => ([], [], fs)
  | fs, idx, url :: rest =>
    let ext := (pySplitExt url).2
    let filename := str "grok_image_" ++ natToStr (idx + 1) ++ ext
    let file_path := pyJoinPath wd filename
    let fs' := fsSet fs file_path (w.fetchSize url)
    let (a, f, fs'') := grokDownloads wd w fs' (idx + 1) rest
    (SendAction.download url file_path :: a, file_path :: f, fs'')

/-- Processing of one `UserMessage`: only when the last tool used was the
Grok image generator are its tool results parsed and the images
downloaded; nothing is ever yielded. -/
def procUserBlocks (wd : Str) (w : SendWorld) (lastTool : Option String) :
    FS → List Block → List SendAction × List Str × FS
  | fs, [] => ([], [], fs)
  | fs, b :: rest =>
    match b with
    | .toolResult content =>
      if lastTool = some "mcp__grok__generate_image" then
        let urls := w.parseImages content
        let (a, f, fs') := grokDownloads wd w fs 0 urls
        let (a2, f2, fs'') := procUserBlocks wd w lastTool fs' rest
        (a ++ a2, f ++ f2, fs'')
      else
        procUserBlocks wd w lastTool fs rest
    | _ => procUserBlocks wd w lastTool fs rest

/-- The streaming loop of `send` over the messages of one agent reply. -/
def procMessages (wd cwd : Str) (w : SendWorld) :
    FS → Option String → List Message → List SendAction × List Str × FS
  | fs, _, [] => ([], [], fs)
  | fs, lastTool, m :: rest =>
    match m with
    | .assistant bs =>
      let (a, f, lt) := procBlocks wd cwd fs lastTool bs
      let (a2, f2, fs2) := procMessages wd cwd w fs lt rest
      (a ++ a2, f ++ f2, fs2)
    | .user bs =>
      if lastTool = some "mcp__grok__generate_image" then
        let (a, f, fs1) := procUserBlocks wd w lastTool fs bs
        let (a2, f2, fs2) := procMessages wd cwd w fs1 lastTool rest
        (a ++ a2, f ++ f2, fs2)
      else
        procMessages wd cwd w fs lastTool rest
    | .otherMsg => procMessages wd cwd w fs lastTool rest

/-- Observable outcome of one `send` call: the ordered action trace, the
exception raised (if any), the session state afterwards, and the file
system afterwards. -/
structure SendOutcome where
  trace : List SendAction
  raised : Option PyError
  state : SessionState
  fs : FS

/-- Embeds `DesignSession.send`: the not-connected guard, the message
counter increment, the streaming loop, and — only after the loop has
finished — one `_auto_open_file` call per collected path.  The working
directory is read as `getD []`: past the guard the session was connected
by `connect`, which requires a non-`None` working directory. -/
def send (s : SessionState) (cwd : Str) (w : SendWorld) (fs : FS)
    (msgs : List Message) : SendOutcome :=
  if ¬ (s.isConnected ∧ s.hasClient) then
    ⟨[], some notConnectedError, s, fs⟩
  else
    let s' := { s with messageCount := s.messageCount + 1 }
    let wd := (s.workingDir).getD []
    let (acts, created_files, fs') := procMessages wd cwd w fs none msgs
    ⟨acts ++ created_files.map SendAction.openFile, none, s', fs'⟩

/-- One front-end-driven operation on a session. -/
inductive SessionOp where
  | connectOp (transportOk : Bool)
  | disconnectOp
  | sendOp (msgs : List Message)

/-- One step of the session life cycle (an exception leaves the recorded
state of the failed operation). -/
def stepOp (cwd : Str) (w : SendWorld) :
    SessionState × Env × FS → SessionOp → SessionState × Env × FS
  | (s, env, fs), .connectOp tOk =>
    match connect s env tOk with
    | .ok s' env' => (s', env', fs)
    | .error _ s' env' => (s', env', fs)
  | (s, env, fs), .disconnectOp => (disconnect s, env, fs)
  | (s, env, fs), .sendOp msgs =>
    let o := send s cwd w fs msgs
    (o.state, env, o.fs)

/-- Running a whole operation sequence. -/
def runOps (cwd : Str) (w : SendWorld) :
    SessionState × Env × FS → List SessionOp → SessionState × Env × FS
  | st, [] => st
  | st, op :: rest => runOps cwd w (stepOp cwd w st op) rest

/-- The number of `send` calls of the sequence issued against a
connected session (the claim's "successful send calls"). -/
def successfulSendCount (cwd : Str) (w : SendWorld) :
    SessionState × Env × FS → List SessionOp → Nat
  | _, [] => 0
  | st, op :: rest =>
    (match op with
     | .sendOp _ => if st.1.isConnected ∧ st.1.hasClient then 1 else 0
     | _ => 0) + successfulSendCount cwd w (stepOp cwd w st op) rest

/-! ### Spec-side observation functions for the claims -/

/-- The text chunks carried by the `AssistantMessage`s of a reply, in
emission order — the spec-side description of what the stream's text
events must be. -/
def specAssistantTexts (msgs : List Message) : List Str :=
  msgs.flatMap fun m =>
    match m with
    | .assistant bs => bs.filterMap fun b =>
        match b with
        | .text t => some t
        | _ => none
    | _ => []

/-- The text chunks among the yielded events of a trace, in order. -/
def traceTexts (trace : List SendAction) : List Str :=
  trace.filterMap fun a =>
    match a with
    | .yieldEv (.text t) => some t
    | _ => none

/-- Whether an action is an invocation of the auto-open side effect. -/
def isOpenAction : SendAction → Bool
  | .openFile _ => true
  | _ => false

/-- Whether an action yields a tool-result event. -/
def isToolResultEvent : SendAction → Bool
  | .yieldEv (.toolResult _) => true
  | _ => false

/-- Whether an action yields a tool-use event. -/
def isToolUseEvent : SendAction → Bool
  | .yieldEv (.toolUse _) => true
  | _ => false

/-- The spec-side output-path resolution the claim C8 ascribes to every
adapter: a non-absolute path is interpreted relative to the configured
working directory. -/
def specResolveOutput (workingDir p : Str) : Str :=
  if pyIsAbs p then p else pyJoinPath workingDir p

/-! ## General lemmas about the string primitives -/

/-- Unfolding of `pyFind` on a cons cell. -/
theorem pyFind_cons (c : Char) (rest sub : Str) :
    pyFind (c :: rest) sub =
      if pyStartsWith sub (c :: rest) then some 0 else (pyFind rest sub).map (· + 1) := rfl

/-- Unfolding of `pyRFind` on a cons cell. -/
theorem pyRFind_cons (c : Char) (rest sub : Str) :
    pyRFind (c :: rest) sub =
      match pyRFind rest sub with
      | some i => some (i + 1)
      | none => if pyStartsWith sub (c :: rest) then some 0 else none := rfl

/-- A string starts with itself followed by anything. -/
theorem pyStartsWith_self_append (p t : Str) : pyStartsWith p (p ++ t) = true := by
  induction p with
  | nil => rfl
  | cons c rest ih => simp [pyStartsWith, ih]

/-- A nonempty pattern does not start a string whose head differs from the
pattern's head. -/
theorem pyStartsWith_cons_ne (a c : Char) (subRest rest : Str) (h : a ≠ c) :
    pyStartsWith (c :: subRest) (a :: rest) = false := by
  simp [pyStartsWith, beq_eq_false_iff_ne, Ne.symm h]

/-- The first occurrence of a pattern `c :: subRest` in `p ++ s` is at
`p.length` when no character of `p` equals `c` and the pattern starts
`s`. -/
theorem pyFind_append_of_no_head (p s : Str) (c : Char) (subRest : Str)
    (hp : ∀ x ∈ p, x ≠ c) (hs : pyStartsWith (c :: subRest) s = true) :
    pyFind (p ++ s) (c :: subRest) = some p.length := by
  induction p with
  | nil =>
    cases s with
    | nil => simp [pyStartsWith] at hs
    | cons a rest =>
      rw [List.nil_append, pyFind_cons, if_pos hs]
      rfl
  | cons a p' ih =>
    have ha : a ≠ c := hp a (List.mem_cons_self a p')
    have ih' := ih (fun x hx => hp x (List.mem_cons_of_mem a hx))
    rw [List.cons_append, pyFind_cons,
      if_neg (by rw [pyStartsWith_cons_ne a c subRest _ ha]; exact Bool.false_ne_true),
      ih']
    rfl

/-- A pattern `c :: subRest` has no occurrence in a string containing no
`c`. -/
theorem pyRFind_none_of_no_head (s : Str) (c : Char) (subRest : Str)
    (h : ∀ x ∈ s, x ≠ c) : pyRFind s (c :: subRest) = none := by
  induction s with
  | nil => simp [pyRFind]
  | cons a rest ih =>
    have ha : a ≠ c := h a (List.mem_cons_self a rest)
    rw [pyRFind_cons, ih (fun x hx => h x (List.mem_cons_of_mem a hx))]
    rw [if_neg (by rw [pyStartsWith_cons_ne a c subRest _ ha]; exact Bool.false_ne_true)]

/-- An occurrence in the right part dominates: `rfind` over `p ++ q`
relocates the last occurrence of `q`. -/
theorem pyRFind_append_of_some (p q sub : Str) (i : Nat)
    (h : pyRFind q sub = some i) : pyRFind (p ++ q) sub = some (p.length + i) := by
  induction p with
  | nil => simpa using h
  | cons a p' ih =>
    rw [List.cons_append, pyRFind_cons, ih]
    refine congrArg some ?_
    simp [List.length_cons]
    omega

/-- When the tail holds no further occurrence, the last occurrence of the
pattern in `pattern ++ t` is at index zero. -/
theorem pyRFind_self_append (c : Char) (subRest t : Str)
    (h : pyRFind (subRest ++ t) (c :: subRest) = none) :
    pyRFind ((c :: subRest) ++ t) (c :: subRest) = some 0 := by
  rw [List.cons_append, pyRFind_cons, h]
  exact if_pos (pyStartsWith_self_append (c :: subRest) t)

/-- Python `strip` is the identity on a string whose first and last
characters are not whitespace. -/
theorem pyStrip_eq_self (s : Str)
    (h1 : ∀ c, s.head? = some c → isPySpace c = false)
    (h2 : ∀ c, s.getLast? = some c → isPySpace c = false) :
    pyStrip s = s := by
  have drop1 : s.dropWhile isPySpace = s := by
    cases s with
    | nil => rfl
    | cons a rest => simp [List.dropWhile_cons, h1 a rfl]
  have drop2 : s.reverse.dropWhile isPySpace = s.reverse := by
    cases hrev : s.reverse with
    | nil => rfl
    | cons a rest =>
      have : s.getLast? = some a := by
        rw [← List.head?_reverse, hrev]; rfl
      simp [List.dropWhile_cons, h2 a this]
  unfold pyStrip
  rw [drop1, drop2, List.reverse_reverse]

/-- Substring containment holds whenever the string splits around the
pattern. -/
theorem pyContainsStr_of_parts (a sub b : Str) :
    pyContainsStr (a ++ (sub ++ b)) sub = true := by
  unfold pyContainsStr
  induction a with
  | nil =>
    cases sub with
    | nil =>
      cases b with
      | nil => rfl
      | cons c rest => simp [pyFind, pyStartsWith]
    | cons c rest =>
      have h := pyStartsWith_self_append (c :: rest) b
      rw [List.cons_append] at h
      rw [List.nil_append, List.cons_append, pyFind_cons, if_pos h]
      rfl
  | cons x a' ih =>
    rw [List.cons_append, pyFind_cons]
    cases hsw : pyStartsWith sub (x :: (a' ++ (sub ++ b))) with
    | true => rfl
    | false =>
      rw [if_neg Bool.false_ne_true]
      simpa using ih

/-! ## C2 — autonomy-mode parsing -/

/-- C2: `AutonomyMode.from_string` maps "auto", "acceptEdits", "Auto" and
"AUTO" to `AUTO`, raises `ValueError` on every string whose normal form is
not an accepted spelling, while `get_default_autonomy_mode` never raises:
it answers `APPROVAL` when `PYGMALION_AUTONOMY_MODE` is absent, and also
when the variable holds an unparsable value. -/
theorem autonomy_mode_parsing :
    (AutonomyMode.from_string (str "auto") = .ok .AUTO ∧
     AutonomyMode.from_string (str "acceptEdits") = .ok .AUTO ∧
     AutonomyMode.from_string (str "Auto") = .ok .AUTO ∧
     AutonomyMode.from_string (str "AUTO") = .ok .AUTO) ∧
    (∀ v : Str, normalizeModeStr v ∉ acceptedModeSpellings →
      AutonomyMode.from_string v =
        .error (str "Unknown autonomy mode: " ++ normalizeModeStr v ++
          str ". Expected: approval, auto, or full_auto")) ∧
    (∀ env : Env, env "PYGMALION_AUTONOMY_MODE" = none →
      get_default_autonomy_mode env = .APPROVAL) ∧
    (∀ (env : Env) (v : Str), env "PYGMALION_AUTONOMY_MODE" = some v →
      (∀ m, AutonomyMode.from_string (pyStrip v) ≠ .ok m) →
      get_default_autonomy_mode env = .APPROVAL) := by
  refine ⟨⟨by decide, by decide, by decide, by decide⟩, ?_, ?_, ?_⟩
  · intro v hv
    simp only [acceptedModeSpellings, List.mem_cons, List.not_mem_nil, or_false,
      not_or] at hv
    obtain ⟨h1, h2, h3, h4, h5, h6, h7, h8⟩ := hv
    unfold AutonomyMode.from_string
    rw [if_neg (by tauto), if_neg (by tauto), if_neg (by tauto)]
  · intro env h
    simp [get_default_autonomy_mode, envGetD, h, pyStrip]
  · intro env v h hErr
    unfold get_default_autonomy_mode
    rw [show envGetD env "PYGMALION_AUTONOMY_MODE" [] = v by simp [envGetD, h]]
    by_cases hne : pyStrip v = []
    · simp [hne]
    · cases hfs : AutonomyMode.from_string (pyStrip v) with
      | ok m => exact absurd hfs (hErr m)
      | error e => simp [hne, hfs]

/-- Witness for C2 at concrete inputs. -/
theorem autonomy_mode_parsing_witness :
    AutonomyMode.from_string (str "auto") = .ok .AUTO ∧
    AutonomyMode.from_string (str "bogus") =
      .error (str "Unknown autonomy mode: " ++ normalizeModeStr (str "bogus") ++
        str ". Expected: approval, auto, or full_auto") ∧
    get_default_autonomy_mode emptyEnv = .APPROVAL ∧
    get_default_autonomy_mode
      (envSet emptyEnv "PYGMALION_AUTONOMY_MODE" (str "garbage")) = .APPROVAL :=
  ⟨autonomy_mode_parsing.1.1,
   autonomy_mode_parsing.2.1 (str "bogus") (by decide),
   autonomy_mode_parsing.2.2.1 emptyEnv rfl,
   autonomy_mode_parsing.2.2.2 _ (str "garbage") rfl
     (fun m => by cases m <;> decide)⟩

/-! ## C1 — optional-integration gating -/

/-- The boolean `is_gemini_enabled` decides exactly the spec-side gate. -/
theorem is_gemini_enabled_iff (env : Env) :
    is_gemini_enabled env = true ↔ specGeminiGate env := by
  simp [is_gemini_enabled, specGeminiGate]

/-- The boolean `is_figma_enabled` decides exactly the spec-side gate. -/
theorem is_figma_enabled_iff (env : Env) :
    is_figma_enabled env = true ↔ specFigmaGate env := by
  simp [is_figma_enabled, specFigmaGate]

/-- C1: a Gemini or Figma tool name is in the resolved allow-list
`DEFAULT_TOOLS` exactly when the integration's opt-in flag is truthy and
its credential is present and non-blank; when the gate fails, the
integration's tool names are entirely absent. -/
theorem optional_integration_gating (env : Env) :
    (∀ t ∈ GEMINI_TOOL_NAMES, (t ∈ DEFAULT_TOOLS env ↔ specGeminiGate env)) ∧
    (∀ t ∈ FIGMA_TOOL_NAMES, (t ∈ DEFAULT_TOOLS env ↔ specFigmaGate env)) ∧
    (¬ specGeminiGate env → ∀ t ∈ GEMINI_TOOL_NAMES, t ∉ DEFAULT_TOOLS env) ∧
    (¬ specFigmaGate env → ∀ t ∈ FIGMA_TOOL_NAMES, t ∉ DEFAULT_TOOLS env) := by
  have hmem : ∀ t : String, t ∈ DEFAULT_TOOLS env ↔
      (t ∈ (["Read", "Write", "Edit", "Bash", "Glob", "Grep",
        "WebSearch", "WebFetch", "Skill"] : List String) ∨
       t ∈ INKSCAPE_TOOL_NAMES ∨ t ∈ IMAGEMAGICK_TOOL_NAMES ∨
       t ∈ GIMP_TOOL_NAMES ∨ t ∈ WEASYPRINT_TOOL_NAMES ∨
       (is_gemini_enabled env = true ∧ t ∈ GEMINI_TOOL_NAMES) ∨
       (is_figma_enabled env = true ∧ t ∈ FIGMA_TOOL_NAMES) ∨
       (is_grok_enabled env = true ∧ t ∈ GROK_TOOL_NAMES)) := by
    intro t
    simp only [DEFAULT_TOOLS, List.mem_append, List.mem_ite_nil_right]
    tauto
  constructor
  · intro t ht
    rw [hmem, ← is_gemini_enabled_iff]
    fin_cases ht <;>
      simp [INKSCAPE_TOOL_NAMES, IMAGEMAGICK_TOOL_NAMES, GIMP_TOOL_NAMES,
        WEASYPRINT_TOOL_NAMES, GEMINI_TOOL_NAMES, FIGMA_TOOL_NAMES, GROK_TOOL_NAMES]
  constructor
  · intro t ht
    rw [hmem, ← is_figma_enabled_iff]
    fin_cases ht <;>
      simp [INKSCAPE_TOOL_NAMES, IMAGEMAGICK_TOOL_NAMES, GIMP_TOOL_NAMES,
        WEASYPRINT_TOOL_NAMES, GEMINI_TOOL_NAMES, FIGMA_TOOL_NAMES, GROK_TOOL_NAMES]
  constructor
  · intro hno t ht
    rw [hmem, ← is_gemini_enabled_iff] at *
    fin_cases ht <;>
      simp_all [INKSCAPE_TOOL_NAMES, IMAGEMAGICK_TOOL_NAMES, GIMP_TOOL_NAMES,
        WEASYPRINT_TOOL_NAMES, GEMINI_TOOL_NAMES, FIGMA_TOOL_NAMES, GROK_TOOL_NAMES]
  · intro hno t ht
    rw [hmem, ← is_figma_enabled_iff] at *
    fin_cases ht <;>
      simp_all [INKSCAPE_TOOL_NAMES, IMAGEMAGICK_TOOL_NAMES, GIMP_TOOL_NAMES,
        WEASYPRINT_TOOL_NAMES, GEMINI_TOOL_NAMES, FIGMA_TOOL_NAMES, GROK_TOOL_NAMES]

/-- Witness for C1: with the enable flag `"true"` but the API key unset,
neither Gemini tool name is present in the resolved allow-list. -/
theorem optional_integration_gating_witness :
    "mcp__gemini__gemini_generate_image" ∉
      DEFAULT_TOOLS (envSet emptyEnv "PYGMALION_GEMINI_ENABLED" (str "true")) ∧
    "mcp__gemini__gemini_generate_svg" ∉
      DEFAULT_TOOLS (envSet emptyEnv "PYGMALION_GEMINI_ENABLED" (str "true")) :=
  ⟨(optional_integration_gating _).2.2.1 (by decide)
      "mcp__gemini__gemini_generate_image" (by simp [GEMINI_TOOL_NAMES]),
   (optional_integration_gating _).2.2.1 (by decide)
      "mcp__gemini__gemini_generate_svg" (by simp [GEMINI_TOOL_NAMES])⟩

/-! ## C3 — send on a disconnected session -/

/-- C3: calling `send` on a session that is not connected raises the
"not connected" `RuntimeError` and produces nothing: the action trace is
empty (no events, no side effects), the session state — including
`message_count` — is unchanged, and so is the file system. -/
theorem send_disconnected_raises (s : SessionState) (cwd : Str) (w : SendWorld)
    (fs : FS) (msgs : List Message)
    (h : s.isConnected = false ∨ s.hasClient = false) :
    send s cwd w fs msgs = ⟨[], some notConnectedError, s, fs⟩ ∧
    notConnectedError.kind = .runtimeError := by
  have hc : ¬ (s.isConnected ∧ s.hasClient) := by
    rcases h with h | h <;> simp [h]
  refine ⟨?_, rfl⟩
  unfold send
  rw [if_pos hc]

/-- Witness for C3: a freshly constructed (never connected) session. -/
theorem send_disconnected_raises_witness :
    send (mkDesignSession emptyEnv (some (str "/work"))) []
        ⟨fun _ => [], fun _ => 0⟩ (fun _ => none) [] =
      ⟨[], some notConnectedError, mkDesignSession emptyEnv (some (str "/work")),
        fun _ => none⟩ ∧
    notConnectedError.kind = .runtimeError :=
  send_disconnected_raises _ _ _ _ _ (Or.inl rfl)

/-! ## C10 — connect with a missing working directory -/

/-- C10: on a not-yet-connected session whose working directory is `None`,
`connect` always fails with the `TypeError` raised by the
`os.environ["PYGMALION_OUTPUT_DIR"] = None` assignment, leaving the
session unconnected — even though the constructor accepts
`working_dir=None` as its default (conjunct two). -/
theorem connect_none_workdir_type_error (s : SessionState) (env : Env) (tOk : Bool)
    (h1 : s.workingDir = none) (h2 : s.isConnected = false) :
    connect s env tOk = .error ⟨.typeError, str "str expected, not NoneType"⟩ s env ∧
    (∀ e : Env, (mkDesignSession e).workingDir = none ∧
      (mkDesignSession e).isConnected = false) := by
  constructor
  · unfold connect
    rw [if_neg (by simp [h2]), h1]
  · intro e; exact ⟨rfl, rfl⟩

/-- Witness for C10: the default-constructed session. -/
theorem connect_none_workdir_type_error_witness :
    connect (mkDesignSession emptyEnv) emptyEnv true =
      .error ⟨.typeError, str "str expected, not NoneType"⟩
        (mkDesignSession emptyEnv) emptyEnv ∧
    (∀ e : Env, (mkDesignSession e).workingDir = none ∧
      (mkDesignSession e).isConnected = false) :=
  connect_none_workdir_type_error (mkDesignSession emptyEnv) emptyEnv true rfl rfl

/-! ## C4 — message-count accounting -/

/-- Each life-cycle step changes `messageCount` by exactly one on a
connected `send` and by nothing otherwise. -/
theorem stepOp_messageCount (cwd : Str) (w : SendWorld)
    (st : SessionState × Env × FS) (op : SessionOp) :
    (stepOp cwd w st op).1.messageCount =
      st.1.messageCount +
        (match op with
         | .sendOp _ => if st.1.isConnected ∧ st.1.hasClient then 1 else 0
         | _ => 0) := by
  obtain ⟨s, env, fs⟩ := st
  cases op with
  | connectOp tOk =>
    simp only [stepOp]
    unfold connect
    cases h1 : s.isConnected with
    | true => simp
    | false =>
      simp only [Bool.false_eq_true, if_false]
      cases h2 : s.workingDir with
      | none => simp
      | some wd =>
        cases h3 : tOk with
        | true => simp
        | false => simp
  | disconnectOp =>
    simp only [stepOp]
    unfold disconnect
    by_cases h : s.hasClient ∧ s.isConnected
    · rw [if_pos h]; rfl
    · rw [if_neg h]; rfl
  | sendOp msgs =>
    simp only [stepOp, send]
    by_cases hc : s.isConnected ∧ s.hasClient
    · rw [if_neg (not_not_intro hc), if_pos hc]
    · rw [if_pos hc, if_neg hc]
      rfl

/-- C4: after any operation sequence, `message_count` equals its initial
value plus the number of `send` calls issued against a connected session
(so from a fresh session, after N successful sends it is N), the
increment of one successful `send` is independent of the reply's content
(hence of how many tool invocations it contains), and no operation ever
decreases the counter. -/
theorem message_count_accounting (cwd : Str) (w : SendWorld) :
    (∀ (s : SessionState) (fs : FS) (msgs : List Message),
      (send s cwd w fs msgs).state.messageCount =
        (if s.isConnected ∧ s.hasClient then s.messageCount + 1 else s.messageCount)) ∧
    (∀ (st : SessionState × Env × FS) (op : SessionOp),
      st.1.messageCount ≤ (stepOp cwd w st op).1.messageCount) ∧
    (∀ (st : SessionState × Env × FS) (ops : List SessionOp),
      (runOps cwd w st ops).1.messageCount =
        st.1.messageCount + successfulSendCount cwd w st ops) := by
  refine ⟨?_, ?_, ?_⟩
  · intro s fs msgs
    unfold send
    by_cases hc : s.isConnected ∧ s.hasClient
    · rw [if_neg (not_not_intro hc), if_pos hc]
    · rw [if_pos hc, if_neg hc]
  · intro st op
    rw [stepOp_messageCount]
    omega
  · intro st ops
    induction ops generalizing st with
    | nil => simp [runOps, successfulSendCount]
    | cons op rest ih =>
      show (runOps cwd w (stepOp cwd w st op) rest).1.messageCount = _
      rw [ih, stepOp_messageCount]
      show _ = st.1.messageCount +
        ((match op with
         | .sendOp _ => if st.1.isConnected ∧ st.1.hasClient then 1 else 0
         | _ => 0) + successfulSendCount cwd w (stepOp cwd w st op) rest)
      omega

/-- Witness for C4: two sends on a connected session yield a count of
two; a send attempt while disconnected leaves it unchanged. -/
theorem message_count_accounting_witness :
    (send { mkDesignSession emptyEnv (some (str "/work")) with
        isConnected := true, hasClient := true } []
      ⟨fun _ => [], fun _ => 0⟩ (fun _ => none) []).state.messageCount = 1 ∧
    (runOps [] ⟨fun _ => [], fun _ => 0⟩
      ({ mkDesignSession emptyEnv (some (str "/work")) with
          isConnected := true, hasClient := true }, emptyEnv, fun _ => none)
      [.sendOp [], .sendOp []]).1.messageCount = 2 := by
  constructor
  · have h := (message_count_accounting [] ⟨fun _ => [], fun _ => 0⟩).1
      { mkDesignSession emptyEnv (some (str "/work")) with
        isConnected := true, hasClient := true } (fun _ => none) []
    simpa using h
  · have h := (message_count_accounting [] ⟨fun _ => [], fun _ => 0⟩).2.2
      ({ mkDesignSession emptyEnv (some (str "/work")) with
          isConnected := true, hasClient := true }, emptyEnv, fun _ => none)
      [.sendOp [], .sendOp []]
    rw [h]
    rfl

/-! ## C6 — 4K batch generation is rejected -/

/-- C6: a Gemini image request that resolves to the 4K tier with more
than one requested image returns the explanatory single-image rejection
envelope; the 4K generation helper is never invoked, no directory is
created, and the file system is untouched. -/
theorem gemini_4k_batch_rejected (env : Env) (cwd : Str) (world : GeminiWorld)
    (fs : FS) (args : GenImageArgs) (k : Str) (n : Int)
    (hkey : check_api_key env = .ok k)
    (hprompt : ¬(args.prompt = [] ∨ (pyStrip args.prompt).length < 3))
    (hsize : resolveImageSize env args.image_size = str "4K")
    (hn : args.num_images = some n) (hn1 : 1 < n) :
    gemini_generate_image true env cwd world fs args =
      ⟨fourKRejectResponse, fs, [], [], false⟩ := by
  unfold gemini_generate_image
  rw [show check_gemini_available true = none from rfl]
  rw [hkey]
  simp only [hn, Option.getD_some, hsize]
  rw [if_neg hprompt, if_pos trivial, if_pos hn1]

/-- Witness for C6 at a concrete request (`num_images = 2`,
`image_size = "4K"`). -/
theorem gemini_4k_batch_rejected_witness :
    gemini_generate_image true (envSet emptyEnv "GEMINI_API_KEY" (str "k")) []
      ⟨fun _ _ _ _ => .ok [], fun _ _ => .ok none, fun _ _ => .ok none⟩
      (fun _ => none)
      { prompt := str "a red fox", output_file := str "fox.png",
        num_images := some 2, image_size := some (str "4K") } =
      ⟨fourKRejectResponse, fun _ => none, [], [], false⟩ :=
  gemini_4k_batch_rejected _ _ _ _ _ (str "k") 2 rfl (by decide) (by decide) rfl
    (by decide)

/-! ## C7 — missing input files -/

/-- Splitting helper: a literal message decomposes around its
`"not found"` fragment. -/
theorem msg_split (A B N C : Str) (hA : A = B ++ N ++ C) (p : Str) :
    A ++ p = B ++ (N ++ (C ++ p)) := by
  subst hA
  simp [List.append_assoc]

/-- The `"Error: Input file not found: {p}"` envelope contains
`"not found"`. -/
theorem inputFile_msg_has_notFound (p : Str) :
    pyContainsStr (str "Error: Input file not found: " ++ p) (str "not found") = true := by
  rw [msg_split _ (str "Error: Input file ") (str "not found") (str ": ") (by decide) p]
  exact pyContainsStr_of_parts _ _ _

/-- The `"Error: File not found: {p}"` envelope contains `"not found"`. -/
theorem file_msg_has_notFound (p : Str) :
    pyContainsStr (str "Error: File not found: " ++ p) (str "not found") = true := by
  rw [msg_split _ (str "Error: File ") (str "not found") (str ": ") (by decide) p]
  exact pyContainsStr_of_parts _ _ _

/-- The `"Error: Base image not found: {p}"` envelope contains
`"not found"`. -/
theorem base_msg_has_notFound (p : Str) :
    pyContainsStr (str "Error: Base image not found: " ++ p) (str "not found") = true := by
  rw [msg_split _ (str "Error: Base image ") (str "not found") (str ": ") (by decide) p]
  exact pyContainsStr_of_parts _ _ _

/-- The `"Error: Overlay image not found: {p}"` envelope contains
`"not found"`. -/
theorem overlay_msg_has_notFound (p : Str) :
    pyContainsStr (str "Error: Overlay image not found: " ++ p) (str "not found") = true := by
  rw [msg_split _ (str "Error: Overlay image ") (str "not found") (str ": ") (by decide) p]
  exact pyContainsStr_of_parts _ _ _

/-- C7 (amended): for every tool adapter taking a required input-file
path, a call whose required input file does not exist returns the fixed
envelope whose text contains `"not found"`, runs no external process and
leaves the file system unchanged — provided the adapter's validations
that precede the existence check pass (`trace_bitmap` first validates the
`.svg` output extension; `html_to_pdf` first requires the WeasyPrint
library).  The adapters never raise: every exception path of the source
is itself mapped to an envelope, which the totality of these Lean
functions reflects. -/
theorem adapters_missing_input_not_found :
    (∀ (w : ProcWorld) (fs : FS) (args : ExportSvgArgs),
      fsExists fs args.input_file = false →
      pyContainsStr (export_svg w fs args).resp.text (str "not found") = true ∧
      (export_svg w fs args).calls = [] ∧ (export_svg w fs args).fs = fs) ∧
    (∀ (w : ProcWorld) (fs : FS) (args : OpenInInkscapeArgs),
      fsExists fs args.file_path = false →
      pyContainsStr (open_in_inkscape w fs args).resp.text (str "not found") = true ∧
      (open_in_inkscape w fs args).calls = [] ∧ (open_in_inkscape w fs args).fs = fs) ∧
    (∀ (w : ProcWorld) (fs : FS) (args : QuerySvgArgs),
      fsExists fs args.file_path = false →
      pyContainsStr (query_svg w fs args).resp.text (str "not found") = true ∧
      (query_svg w fs args).calls = [] ∧ (query_svg w fs args).fs = fs) ∧
    (∀ (w : ProcWorld) (fs : FS) (args : ConvertSvgArgs),
      fsExists fs args.input_file = false →
      pyContainsStr (convert_svg w fs args).resp.text (str "not found") = true ∧
      (convert_svg w fs args).calls = [] ∧ (convert_svg w fs args).fs = fs) ∧
    (∀ (w : ProcWorld) (fs : FS) (args : ImageResizeArgs),
      fsExists fs args.input_file = false →
      pyContainsStr (image_resize w fs args).resp.text (str "not found") = true ∧
      (image_resize w fs args).calls = [] ∧ (image_resize w fs args).fs = fs) ∧
    (∀ (w : ProcWorld) (fs : FS) (args : ImageConvertArgs),
      fsExists fs args.input_file = false →
      pyContainsStr (image_convert w fs args).resp.text (str "not found") = true ∧
      (image_convert w fs args).calls = [] ∧ (image_convert w fs args).fs = fs) ∧
    (∀ (w : ProcWorld) (fs : FS) (args : ImageEffectsArgs),
      fsExists fs args.input_file = false →
      pyContainsStr (image_effects w fs args).resp.text (str "not found") = true ∧
      (image_effects w fs args).calls = [] ∧ (image_effects w fs args).fs = fs) ∧
    (∀ (w : ProcWorld) (fs : FS) (args : ImageCompositeArgs),
      (fsExists fs args.base_image = false →
        pyContainsStr (image_composite w fs args).resp.text (str "not found") = true ∧
        (image_composite w fs args).calls = [] ∧ (image_composite w fs args).fs = fs) ∧
      (fsExists fs args.base_image = true → fsExists fs args.overlay_image = false →
        pyContainsStr (image_composite w fs args).resp.text (str "not found") = true ∧
        (image_composite w fs args).calls = [] ∧ (image_composite w fs args).fs = fs)) ∧
    (∀ (w : ProcWorld) (fs : FS) (args : OpenInGimpArgs),
      fsExists fs args.file_path = false →
      pyContainsStr (open_in_gimp w fs args).resp.text (str "not found") = true ∧
      (open_in_gimp w fs args).calls = [] ∧ (open_in_gimp w fs args).fs = fs) ∧
    (∀ (w : ProcWorld) (fs : FS) (args : GimpScriptArgs),
      fsExists fs args.input_file = false →
      pyContainsStr (gimp_script w fs args).resp.text (str "not found") = true ∧
      (gimp_script w fs args).calls = [] ∧ (gimp_script w fs args).fs = fs) ∧
    (∀ (w : ProcWorld) (fs : FS) (args : GimpFilterArgs),
      fsExists fs args.input_file = false →
      pyContainsStr (gimp_filter w fs args).resp.text (str "not found") = true ∧
      (gimp_filter w fs args).calls = [] ∧ (gimp_filter w fs args).fs = fs) ∧
    (∀ (w : ProcWorld) (fs : FS) (args : GimpTextArgs),
      fsExists fs args.input_file = false →
      pyContainsStr (gimp_text w fs args).resp.text (str "not found") = true ∧
      (gimp_text w fs args).calls = [] ∧ (gimp_text w fs args).fs = fs) ∧
    (∀ (w : ProcWorld) (fs : FS) (args : GimpCompositeArgs),
      (fsExists fs args.base_image = false →
        pyContainsStr (gimp_composite w fs args).resp.text (str "not found") = true ∧
        (gimp_composite w fs args).calls = [] ∧ (gimp_composite w fs args).fs = fs) ∧
      (fsExists fs args.base_image = true → fsExists fs args.overlay_image = false →
        pyContainsStr (gimp_composite w fs args).resp.text (str "not found") = true ∧
        (gimp_composite w fs args).calls = [] ∧ (gimp_composite w fs args).fs = fs)) ∧
    (∀ (w : ProcWorld) (fs : FS) (args : HtmlToPdfArgs),
      fsExists fs args.input_file = false →
      pyContainsStr (html_to_pdf true w fs args).resp.text (str "not found") = true ∧
      (html_to_pdf true w fs args).calls = [] ∧ (html_to_pdf true w fs args).fs = fs) ∧
    (∀ (w : ProcWorld) (fs : FS) (tmpdir : Str) (args : TraceBitmapArgs),
      pyEndsWith (str ".svg") (pyLower args.output_file) = true →
      fsExists fs args.input_file = false →
      pyContainsStr (trace_bitmap w fs tmpdir args).resp.text (str "not found") = true ∧
      (trace_bitmap w fs tmpdir args).calls = [] ∧
      (trace_bitmap w fs tmpdir args).fs = fs) := by
  refine ⟨?_, ?_, ?_, ?_, ?_, ?_, ?_, ?_, ?_, ?_, ?_, ?_, ?_, ?_, ?_⟩
  · intro w fs args h
    unfold export_svg
    rw [if_pos (by simp [h])]
    exact ⟨inputFile_msg_has_notFound _, rfl, rfl⟩
  · intro w fs args h
    unfold open_in_inkscape
    rw [if_pos (by simp [h])]
    exact ⟨file_msg_has_notFound _, rfl, rfl⟩
  · intro w fs args h
    unfold query_svg
    rw [if_pos (by simp [h])]
    exact ⟨file_msg_has_notFound _, rfl, rfl⟩
  · intro w fs args h
    unfold convert_svg
    rw [if_pos (by simp [h])]
    exact ⟨inputFile_msg_has_notFound _, rfl, rfl⟩
  · intro w fs args h
    unfold image_resize
    rw [if_pos (by simp [h])]
    exact ⟨inputFile_msg_has_notFound _, rfl, rfl⟩
  · intro w fs args h
    unfold image_convert
    rw [if_pos (by simp [h])]
    exact ⟨inputFile_msg_has_notFound _, rfl, rfl⟩
  · intro w fs args h
    unfold image_effects
    rw [if_pos (by simp [h])]
    exact ⟨inputFile_msg_has_notFound _, rfl, rfl⟩
  · intro w fs args
    constructor
    · intro h
      unfold image_composite
      rw [if_pos (by simp [h])]
      exact ⟨base_msg_has_notFound _, rfl, rfl⟩
    · intro h1 h2
      unfold image_composite
      rw [if_neg (by simp [h1]), if_pos (by simp [h2])]
      exact ⟨overlay_msg_has_notFound _, rfl, rfl⟩
  · intro w fs args h
    unfold open_in_gimp
    rw [if_pos (by simp [h])]
    exact ⟨file_msg_has_notFound _, rfl, rfl⟩
  · intro w fs args h
    unfold gimp_script execute_gimp_script
    rw [if_pos (by simp [h])]
    exact ⟨inputFile_msg_has_notFound _, rfl, rfl⟩
  · intro w fs args h
    unfold gimp_filter
    rw [if_pos (by simp [h])]
    exact ⟨inputFile_msg_has_notFound _, rfl, rfl⟩
  · intro w fs args h
    unfold gimp_text
    rw [if_pos (by simp [h])]
    exact ⟨inputFile_msg_has_notFound _, rfl, rfl⟩
  · intro w fs args
    constructor
    · intro h
      unfold gimp_composite
      rw [if_pos (by simp [h])]
      exact ⟨base_msg_has_notFound _, rfl, rfl⟩
    · intro h1 h2
      unfold gimp_composite
      rw [if_neg (by simp [h1]), if_pos (by simp [h2])]
      exact ⟨overlay_msg_has_notFound _, rfl, rfl⟩
  · intro w fs args h
    unfold html_to_pdf
    rw [if_neg (by simp), if_pos (by simp [h])]
    exact ⟨inputFile_msg_has_notFound _, rfl, rfl⟩
  · intro w fs tmpdir args hsvg h
    unfold trace_bitmap
    rw [if_neg (by simp [hsvg]), if_pos (by simp [h])]
    exact ⟨inputFile_msg_has_notFound _, rfl, rfl⟩

/-- Witness for C7's amended theorem: the cited `export_svg` adapter on an
empty file system. -/
theorem adapters_missing_input_not_found_witness :
    pyContainsStr
      (export_svg ⟨fun _ fs => (.completed 0 [] [], fs), fun _ => true,
          fun _ => true, fun _ _ _ fs => .ok fs⟩
        (fun _ => none)
        { input_file := str "missing.svg", output_file := str "out.png" }).resp.text
      (str "not found") = true := by
  have h := adapters_missing_input_not_found.1
    ⟨fun _ fs => (.completed 0 [] [], fs), fun _ => true,
      fun _ => true, fun _ _ _ fs => .ok fs⟩
    (fun _ => none)
    { input_file := str "missing.svg", output_file := str "out.png" }
    rfl
  exact h.1

/-- Counterexample to C7 as frozen: `trace_bitmap` validates the output
extension before the input-existence check, so a call with a missing
input file and a non-`.svg` output path returns an envelope that does not
contain `"not found"`. -/
theorem trace_bitmap_not_found_counterexample :
    (trace_bitmap
        ⟨fun _ fs => (.completed 0 [] [], fs), fun _ => true,
          fun _ => true, fun _ _ _ fs => .ok fs⟩
        (fun _ => none) (str "/tmp/work")
        { input_file := str "missing.png", output_file := str "out.png" }).resp.text =
      str "Error: output_file must end with .svg extension" ∧
    pyContainsStr
      (trace_bitmap
        ⟨fun _ fs => (.completed 0 [] [], fs), fun _ => true,
          fun _ => true, fun _ _ _ fs => .ok fs⟩
        (fun _ => none) (str "/tmp/work")
        { input_file := str "missing.png", output_file := str "out.png" }).resp.text
      (str "not found") = false ∧
    fsExists (fun _ => none) (str "missing.png") = false := by
  refine ⟨rfl, by decide, rfl⟩

/-! ## C8 — path interpretation and directory creation -/

/-- Counterexample to C8 as frozen: `export_svg` hands its relative
output path to the inkscape child exactly as given — it neither rebases
the path onto the configured working directory (here `/work`, as the
spec-side resolution would) nor creates the missing `newdir`
subdirectory. -/
theorem adapter_path_resolution_counterexample :
    (export_svg
        ⟨fun _ fs => (.completed 0 [] [], fs), fun _ => true,
          fun _ => true, fun _ _ _ fs => .ok fs⟩
        (fun p => if p = str "input.svg" then some 100 else none)
        { input_file := str "input.svg", output_file := str "newdir/out.png" }).dirsCreated
      = [] ∧
    (export_svg
        ⟨fun _ fs => (.completed 0 [] [], fs), fun _ => true,
          fun _ => true, fun _ _ _ fs => .ok fs⟩
        (fun p => if p = str "input.svg" then some 100 else none)
        { input_file := str "input.svg", output_file := str "newdir/out.png" }).calls
      = [[str "inkscape", str "input.svg", str "-o", str "newdir/out.png",
          str "--export-type=png", str "--export-dpi=96"]] ∧
    specResolveOutput (str "/work") (str "newdir/out.png") = str "/work/newdir/out.png" ∧
    (str "/work/newdir/out.png") ∉
      [str "inkscape", str "input.svg", str "-o", str "newdir/out.png",
       str "--export-type=png", str "--export-dpi=96"] := by
  refine ⟨by decide, by decide, by decide, by decide⟩

/-- C8 (amended): only the Gemini adapters interpret a non-absolute
output path relative to the configured working directory (through the
`PYGMALION_OUTPUT_DIR` hint) and create the missing parent directories;
the subprocess-based adapters — `export_svg` proved here for the cited
source — pass the output path to the external binary exactly as given
and never create a directory. -/
theorem adapter_path_resolution_amended :
    (∀ (w : ProcWorld) (fs : FS) (args : ExportSvgArgs),
      (export_svg w fs args).dirsCreated = [] ∧
      (∀ c ∈ (export_svg w fs args).calls, args.output_file ∈ c)) ∧
    (∀ (env : Env) (cwd : Str) (world : GeminiWorld) (fs : FS)
        (args : GenImageArgs) (k d : Str) (n : Nat),
      check_api_key env = .ok k →
      ¬(args.prompt = [] ∨ (pyStrip args.prompt).length < 3) →
      resolveImageSize env args.image_size ≠ str "4K" →
      args.num_images = none →
      (∀ p num ar size, world.generateImages p num ar size = .ok [n]) →
      env "PYGMALION_OUTPUT_DIR" = some d → d ≠ [] →
      pyIsAbs args.output_file = false →
      (gemini_generate_image true env cwd world fs args).writes =
        [pyJoinPath d args.output_file] ∧
      (gemini_generate_image true env cwd world fs args).dirsCreated =
        makedirsFor (pyJoinPath d args.output_file) ∧
      (gemini_generate_image true env cwd world fs args).fs
        (pyJoinPath d args.output_file) = some n) := by
  constructor
  · intro w fs args
    have hmem : args.output_file ∈ exportSvgCmd args := by
      unfold exportSvgCmd
      simp
    constructor
    · unfold export_svg
      dsimp only
      split
      · rfl
      · split
        · split <;> rfl
        · rfl
        · rfl
    · intro c hc
      unfold export_svg at hc
      dsimp only at hc
      split at hc
      · simp at hc
      · split at hc
        · split at hc <;> (simp at hc; subst hc; exact hmem)
        · simp at hc; subst hc; exact hmem
        · simp at hc; subst hc; exact hmem
  · intro env cwd world fs args k d n hkey hprompt hsize hnum hgen hdir hd habs
    unfold gemini_generate_image
    rw [show check_gemini_available true = none from rfl, hkey]
    simp only [hnum, Option.getD_none]
    have hres : resolveGeminiOutput env cwd args.output_file =
        pyJoinPath d args.output_file := by
      unfold resolveGeminiOutput
      rw [if_neg (by simp [habs]), hdir]
      simp [hd]
    rw [if_neg hprompt, if_neg hsize, hgen]
    dsimp only
    rw [if_neg (show ¬([n] = []) from by simp), hres, if_pos trivial,
      if_pos (by simp [fsExists, fsSet])]
    refine ⟨rfl, rfl, by simp [fsSet]⟩

/-- Witness for C8's amended theorem: `export_svg` passes `newdir/out.png`
through unresolved, while `gemini_generate_image` writes
`/work/sub/img.png` for relative `sub/img.png` and creates `/work/sub`. -/
theorem adapter_path_resolution_amended_witness :
    ((export_svg
        ⟨fun _ fs => (.completed 0 [] [], fs), fun _ => true,
          fun _ => true, fun _ _ _ fs => .ok fs⟩
        (fun p => if p = str "input.svg" then some 100 else none)
        { input_file := str "input.svg", output_file := str "newdir/out.png" }).dirsCreated
      = []) ∧
    ((gemini_generate_image true
        (envSet (envSet emptyEnv "GEMINI_API_KEY" (str "k"))
          "PYGMALION_OUTPUT_DIR" (str "/work")) []
        ⟨fun _ _ _ _ => .ok [7], fun _ _ => .ok none, fun _ _ => .ok none⟩
        (fun _ => none)
        { prompt := str "a fox at dawn", output_file := str "sub/img.png" }).writes =
      [pyJoinPath (str "/work") (str "sub/img.png")]) := by
  constructor
  · exact (adapter_path_resolution_amended.1
      ⟨fun _ fs => (.completed 0 [] [], fs), fun _ => true,
        fun _ => true, fun _ _ _ fs => .ok fs⟩
      (fun p => if p = str "input.svg" then some 100 else none)
      { input_file := str "input.svg", output_file := str "newdir/out.png" }).1
  · exact (adapter_path_resolution_amended.2
      (envSet (envSet emptyEnv "GEMINI_API_KEY" (str "k"))
        "PYGMALION_OUTPUT_DIR" (str "/work")) []
      ⟨fun _ _ _ _ => .ok [7], fun _ _ => .ok none, fun _ _ => .ok none⟩
      (fun _ => none)
      { prompt := str "a fox at dawn", output_file := str "sub/img.png" }
      (str "k") (str "/work") 7 rfl (by decide) (by decide) rfl
      (fun _ _ _ _ => rfl) rfl (by decide) (by decide)).1

/-! ## C5 — SVG extraction -/

/-- C5: the SVG-extraction step returns a bare `<svg>...</svg>` span
unchanged (conjunct one, for every span body); the same span wrapped in
markdown code fences and surrounded by prose yields the identical span
(conjunct two); and when the model reply contains no `<svg>...</svg>`
span at all, `gemini_generate_svg` returns the explicit invalid-output
envelope, writing no file and creating no directory (conjunct three). -/
theorem svg_extraction_idempotent :
    (∀ mid : Str,
      extractSvgContent (str "<svg" ++ mid ++ str "</svg>") =
        some (str "<svg" ++ mid ++ str "</svg>")) ∧
    (∀ mid : Str,
      extractSvgContent
          (str "Here is the code:\n```svg\n" ++
            (str "<svg" ++ mid ++ str "</svg>") ++ str "\n```\nHope this helps.") =
        some (str "<svg" ++ mid ++ str "</svg>")) ∧
    (∀ (env : Env) (cwd : Str) (world : GeminiWorld) (fs : FS)
        (args : GenSvgArgs) (k raw : Str),
      check_api_key env = .ok k →
      pyEndsWith (str ".svg") (pyLower args.output_file) = true →
      ¬(args.prompt = [] ∨ (pyStrip args.prompt).length < 3) →
      (∀ m p, world.generateText m p = .ok (some raw)) →
      extractSvgContent raw = none →
      gemini_generate_svg true env cwd world fs args =
        ⟨svgInvalidOutputResponse, fs, [], [], false⟩) := by
  refine ⟨?_, ?_, ?_⟩
  · intro mid
    have h1 : pyStrip (str "<svg" ++ mid ++ str "</svg>") =
        str "<svg" ++ mid ++ str "</svg>" := by
      apply pyStrip_eq_self
      · intro c hc
        rw [show str "<svg" ++ mid ++ str "</svg>" =
          '<' :: (str "svg" ++ (mid ++ str "</svg>")) from rfl] at hc
        simp only [List.head?_cons, Option.some.injEq] at hc
        subst hc
        rfl
      · intro c hc
        rw [@List.getLast?_append_of_ne_nil _ (str "<svg" ++ mid) (str "</svg>")
          (by decide)] at hc
        rw [show (str "</svg>").getLast? = some '>' from by decide] at hc
        simp only [Option.some.injEq] at hc
        subst hc
        rfl
    have h3 : pyStartsWith (str "<svg") (str "<svg" ++ mid ++ str "</svg>") = true := by
      have h := pyStartsWith_self_append (str "<svg") (mid ++ str "</svg>")
      rw [← List.append_assoc] at h
      exact h
    unfold extractSvgContent
    dsimp only
    rw [h1]
    rw [if_neg (show ¬(pyStartsWith (str "```")
        (str "<svg" ++ mid ++ str "</svg>") = true) from by
      rw [show pyStartsWith (str "```") (str "<svg" ++ mid ++ str "</svg>") = false
        from rfl]
      exact Bool.false_ne_true)]
    rw [if_pos h3]
  · intro mid
    have h1 : pyStrip (str "Here is the code:\n```svg\n" ++
        (str "<svg" ++ mid ++ str "</svg>") ++ str "\n```\nHope this helps.") =
        str "Here is the code:\n```svg\n" ++
          (str "<svg" ++ mid ++ str "</svg>") ++ str "\n```\nHope this helps." := by
      apply pyStrip_eq_self
      · intro c hc
        rw [show str "Here is the code:\n```svg\n" ++
            (str "<svg" ++ mid ++ str "</svg>") ++ str "\n```\nHope this helps." =
          'H' :: (str "ere is the code:\n```svg\n" ++
            (str "<svg" ++ mid ++ str "</svg>") ++ str "\n```\nHope this helps.")
          from rfl] at hc
        simp only [List.head?_cons, Option.some.injEq] at hc
        subst hc
        rfl
      · intro c hc
        rw [@List.getLast?_append_of_ne_nil _
          (str "Here is the code:\n```svg\n" ++ (str "<svg" ++ mid ++ str "</svg>"))
          (str "\n```\nHope this helps.") (by decide)] at hc
        rw [show (str "\n```\nHope this helps.").getLast? = some '.' from by decide] at hc
        simp only [Option.some.injEq] at hc
        subst hc
        rfl
    have hfind : pyFind
        (str "Here is the code:\n```svg\n" ++
          (str "<svg" ++ mid ++ str "</svg>") ++ str "\n```\nHope this helps.")
        (str "<svg") = some (str "Here is the code:\n```svg\n").length := by
      have hs : pyStartsWith ('<' :: str "svg")
          (((str "<svg" ++ mid) ++ str "</svg>") ++ str "\n```\nHope this helps.") = true := by
        have h := pyStartsWith_self_append (str "<svg")
          (mid ++ (str "</svg>" ++ str "\n```\nHope this helps."))
        rw [← List.append_assoc, ← List.append_assoc] at h
        exact h
      have h := pyFind_append_of_no_head (str "Here is the code:\n```svg\n")
        (((str "<svg" ++ mid) ++ str "</svg>") ++ str "\n```\nHope this helps.")
        '<' (str "svg") (by decide) hs
      rw [← List.append_assoc] at h
      exact h
    have hrfind : pyRFind
        (str "Here is the code:\n```svg\n" ++
          (str "<svg" ++ mid ++ str "</svg>") ++ str "\n```\nHope this helps.")
        (str "</svg>") =
        some ((str "Here is the code:\n```svg\n" ++ (str "<svg" ++ mid)).length + 0) := by
      have hq : pyRFind (str "</svg>" ++ str "\n```\nHope this helps.")
          (str "</svg>") = some 0 := by
        have hnone : pyRFind (str "/svg>" ++ str "\n```\nHope this helps.")
            ('<' :: str "/svg>") = none :=
          pyRFind_none_of_no_head _ '<' _ (by decide)
        exact pyRFind_self_append '<' (str "/svg>") (str "\n```\nHope this helps.") hnone
      have h := pyRFind_append_of_some
        (str "Here is the code:\n```svg\n" ++ (str "<svg" ++ mid))
        (str "</svg>" ++ str "\n```\nHope this helps.") (str "</svg>") 0 hq
      rw [show (str "Here is the code:\n```svg\n" ++ (str "<svg" ++ mid)) ++
          (str "</svg>" ++ str "\n```\nHope this helps.") =
        str "Here is the code:\n```svg\n" ++
          (str "<svg" ++ mid ++ str "</svg>") ++ str "\n```\nHope this helps." from by
        simp [List.append_assoc]] at h
      exact h
    unfold extractSvgContent
    dsimp only
    rw [h1]
    rw [if_neg (show ¬(pyStartsWith (str "```")
        (str "Here is the code:\n```svg\n" ++
          (str "<svg" ++ mid ++ str "</svg>") ++ str "\n```\nHope this helps.") = true)
      from by
      rw [show pyStartsWith (str "```")
          (str "Here is the code:\n```svg\n" ++
            (str "<svg" ++ mid ++ str "</svg>") ++ str "\n```\nHope this helps.") = false
        from rfl]
      exact Bool.false_ne_true)]
    rw [if_neg (show ¬(pyStartsWith (str "<svg")
        (str "Here is the code:\n```svg\n" ++
          (str "<svg" ++ mid ++ str "</svg>") ++ str "\n```\nHope this helps.") = true)
      from by
      rw [show pyStartsWith (str "<svg")
          (str "Here is the code:\n```svg\n" ++
            (str "<svg" ++ mid ++ str "</svg>") ++ str "\n```\nHope this helps.") = false
        from rfl]
      exact Bool.false_ne_true)]
    rw [hfind, hrfind]
    dsimp only
    refine congrArg some ?_
    unfold pySlice
    rw [show str "Here is the code:\n```svg\n" ++
        (str "<svg" ++ mid ++ str "</svg>") ++ str "\n```\nHope this helps." =
      str "Here is the code:\n```svg\n" ++
        ((str "<svg" ++ mid ++ str "</svg>") ++ str "\n```\nHope this helps.") from by
      simp [List.append_assoc]]
    rw [List.drop_left]
    have harith : (str "Here is the code:\n```svg\n" ++ (str "<svg" ++ mid)).length + 0 + 6 -
        (str "Here is the code:\n```svg\n").length =
        (str "<svg" ++ mid ++ str "</svg>").length := by
      simp only [List.length_append]
      have h4 : (str "<svg").length = 4 := by decide
      have h6 : (str "</svg>").length = 6 := by decide
      rw [h4, h6]
      omega
    rw [harith]
    exact List.take_left (str "<svg" ++ mid ++ str "</svg>") (str "\n```\nHope this helps.")
  · intro env cwd world fs args k raw hkey hsvg hprompt hgen hex
    unfold gemini_generate_svg
    rw [show check_gemini_available true = none from rfl, hkey]
    dsimp only
    rw [if_neg (by simp [hsvg]), if_neg hprompt, hgen]
    dsimp only
    rw [hex]

/-- Witness for C5 at concrete inputs: a concrete span body and a
concrete no-SVG model reply. -/
theorem svg_extraction_idempotent_witness :
    extractSvgContent (str "<svg" ++ str " viewBox=\"0 0 4 4\"><rect/>" ++ str "</svg>") =
      some (str "<svg" ++ str " viewBox=\"0 0 4 4\"><rect/>" ++ str "</svg>") ∧
    gemini_generate_svg true (envSet emptyEnv "GEMINI_API_KEY" (str "k")) []
        ⟨fun _ _ _ _ => .ok [], fun _ _ => .ok none,
          fun _ _ => .ok (some (str "I cannot help with that."))⟩
        (fun _ => none)
        { prompt := str "a blue circle icon", output_file := str "icon.svg" } =
      ⟨svgInvalidOutputResponse, fun _ => none, [], [], false⟩ :=
  ⟨svg_extraction_idempotent.1 (str " viewBox=\"0 0 4 4\"><rect/>"),
   svg_extraction_idempotent.2.2
     (envSet emptyEnv "GEMINI_API_KEY" (str "k")) []
     ⟨fun _ _ _ _ => .ok [], fun _ _ => .ok none,
       fun _ _ => .ok (some (str "I cannot help with that."))⟩
     (fun _ => none)
     { prompt := str "a blue circle icon", output_file := str "icon.svg" }
     (str "k") (str "I cannot help with that.")
     rfl (by decide) (by decide) (fun _ _ => rfl) (by decide)⟩

/-! ## C9 — event ordering within one `send` call -/

/-- `traceTexts` distributes over concatenation. -/
theorem traceTexts_append (a b : List SendAction) :
    traceTexts (a ++ b) = traceTexts a ++ traceTexts b :=
  List.filterMap_append ..

/-- Contribution of an assistant message to the spec-side text list. -/
theorem specAssistantTexts_cons_assistant (bs : List Block) (rest : List Message) :
    specAssistantTexts (.assistant bs :: rest) =
      bs.filterMap (fun b => match b with | Block.text t => some t | _ => none) ++
        specAssistantTexts rest := rfl

/-- User messages and unknown messages contribute no spec-side text. -/
theorem specAssistantTexts_cons_user (bs : List Block) (rest : List Message) :
    specAssistantTexts (.user bs :: rest) = specAssistantTexts rest := rfl

/-- Actions produced for one assistant message: none is an auto-open, none
is a tool-result event, and the text events are exactly the message's
text blocks in order. -/
theorem procBlocks_trace_props (wd cwd : Str) (fs : FS) (bs : List Block)
    (lt : Option String) :
    (∀ x ∈ (procBlocks wd cwd fs lt bs).1,
      isOpenAction x = false ∧ isToolResultEvent x = false) ∧
    traceTexts (procBlocks wd cwd fs lt bs).1 =
      bs.filterMap (fun b => match b with | Block.text t => some t | _ => none) := by
  induction bs generalizing lt with
  | nil => exact ⟨by intro x hx; simp [procBlocks] at hx, rfl⟩
  | cons b rest ih =>
    cases b with
    | text t =>
      refine ⟨?_, ?_⟩
      · intro x hx
        simp only [procBlocks, List.mem_cons] at hx
        rcases hx with rfl | hx
        · exact ⟨rfl, rfl⟩
        · exact (ih lt).1 x hx
      · show traceTexts (SendAction.yieldEv (Event.text t) :: (procBlocks wd cwd fs lt rest).1) = _
        simp only [traceTexts, List.filterMap_cons]
        exact congrArg (t :: ·) (ih lt).2
    | toolUse name input =>
      refine ⟨?_, ?_⟩
      · intro x hx
        simp only [procBlocks, List.mem_cons] at hx
        rcases hx with rfl | hx
        · exact ⟨rfl, rfl⟩
        · exact (ih (some name)).1 x hx
      · show traceTexts (SendAction.yieldEv (Event.toolUse name) ::
            (procBlocks wd cwd fs (some name) rest).1) = _
        simp only [traceTexts, List.filterMap_cons]
        exact (ih (some name)).2
    | toolResult c =>
      exact ⟨fun x hx => (ih lt).1 x (by simpa [procBlocks] using hx),
        by simpa [procBlocks, List.filterMap_cons] using (ih lt).2⟩
    | other =>
      exact ⟨fun x hx => (ih lt).1 x (by simpa [procBlocks] using hx),
        by simpa [procBlocks, List.filterMap_cons] using (ih lt).2⟩

/-- Actions of the Grok download loop: only downloads — no auto-open, no
events at all. -/
theorem grokDownloads_trace_props (wd : Str) (w : SendWorld) (urls : List Str)
    (fs : FS) (idx : Nat) :
    (∀ x ∈ (grokDownloads wd w fs idx urls).1,
      isOpenAction x = false ∧ isToolResultEvent x = false) ∧
    traceTexts (grokDownloads wd w fs idx urls).1 = [] := by
  induction urls generalizing fs idx with
  | nil => exact ⟨by intro x hx; simp [grokDownloads] at hx, rfl⟩
  | cons url rest ih =>
    refine ⟨?_, ?_⟩
    · intro x hx
      simp only [grokDownloads, List.mem_cons] at hx
      rcases hx with rfl | hx
      · exact ⟨rfl, rfl⟩
      · exact (ih _ _).1 x hx
    · show traceTexts (SendAction.download url _ :: _) = []
      simp only [traceTexts, List.filterMap_cons]
      exact (ih _ _).2

/-- Actions of one user message: only downloads. -/
theorem procUserBlocks_trace_props (wd : Str) (w : SendWorld)
    (lt : Option String) (bs : List Block) (fs : FS) :
    (∀ x ∈ (procUserBlocks wd w lt fs bs).1,
      isOpenAction x = false ∧ isToolResultEvent x = false) ∧
    traceTexts (procUserBlocks wd w lt fs bs).1 = [] := by
  induction bs generalizing fs with
  | nil => exact ⟨by intro x hx; simp [procUserBlocks] at hx, rfl⟩
  | cons b rest ih =>
    cases b with
    | toolResult c =>
      by_cases hlt : lt = some "mcp__grok__generate_image"
      · have heq : (procUserBlocks wd w lt fs (Block.toolResult c :: rest)).1 =
            (grokDownloads wd w fs 0 (w.parseImages c)).1 ++
              (procUserBlocks wd w lt
                (grokDownloads wd w fs 0 (w.parseImages c)).2.2 rest).1 := by
          simp only [procUserBlocks]
          rw [if_pos hlt]
        refine ⟨?_, ?_⟩
        · intro x hx
          rw [heq] at hx
          rcases List.mem_append.1 hx with hx | hx
          · exact (grokDownloads_trace_props wd w _ fs 0).1 x hx
          · exact (ih _).1 x hx
        · rw [heq, traceTexts_append,
            (grokDownloads_trace_props wd w _ fs 0).2, (ih _).2]
          rfl
      · have heq : (procUserBlocks wd w lt fs (Block.toolResult c :: rest)).1 =
            (procUserBlocks wd w lt fs rest).1 := by
          simp only [procUserBlocks]
          rw [if_neg hlt]
        exact ⟨fun x hx => (ih fs).1 x (by rwa [heq] at hx), by rw [heq]; exact (ih fs).2⟩
    | text t =>
      exact ⟨fun x hx => (ih fs).1 x (by simpa [procUserBlocks] using hx),
        by simpa [procUserBlocks] using (ih fs).2⟩
    | toolUse name input =>
      exact ⟨fun x hx => (ih fs).1 x (by simpa [procUserBlocks] using hx),
        by simpa [procUserBlocks] using (ih fs).2⟩
    | other =>
      exact ⟨fun x hx => (ih fs).1 x (by simpa [procUserBlocks] using hx),
        by simpa [procUserBlocks] using (ih fs).2⟩

/-- Actions of the whole streaming loop: no auto-open, no tool-result
event, and the text events are the assistant text blocks in emission
order. -/
theorem procMessages_trace_props (wd cwd : Str) (w : SendWorld)
    (msgs : List Message) (fs : FS) (lt : Option String) :
    (∀ x ∈ (procMessages wd cwd w fs lt msgs).1,
      isOpenAction x = false ∧ isToolResultEvent x = false) ∧
    traceTexts (procMessages wd cwd w fs lt msgs).1 = specAssistantTexts msgs := by
  induction msgs generalizing fs lt with
  | nil => exact ⟨by intro x hx; simp [procMessages] at hx, rfl⟩
  | cons m rest ih =>
    cases m with
    | assistant bs =>
      have heq : (procMessages wd cwd w fs lt (Message.assistant bs :: rest)).1 =
          (procBlocks wd cwd fs lt bs).1 ++
            (procMessages wd cwd w fs (procBlocks wd cwd fs lt bs).2.2 rest).1 := rfl
      refine ⟨?_, ?_⟩
      · intro x hx
        rw [heq] at hx
        rcases List.mem_append.1 hx with hx | hx
        · exact (procBlocks_trace_props wd cwd fs bs lt).1 x hx
        · exact (ih _ _).1 x hx
      · rw [heq, traceTexts_append, (procBlocks_trace_props wd cwd fs bs lt).2,
          (ih _ _).2, specAssistantTexts_cons_assistant]
    | user bs =>
      by_cases hlt : lt = some "mcp__grok__generate_image"
      · have heq : (procMessages wd cwd w fs lt (Message.user bs :: rest)).1 =
            (procUserBlocks wd w lt fs bs).1 ++
              (procMessages wd cwd w (procUserBlocks wd w lt fs bs).2.2 lt rest).1 := by
          simp only [procMessages]
          rw [if_pos hlt]
        refine ⟨?_, ?_⟩
        · intro x hx
          rw [heq] at hx
          rcases List.mem_append.1 hx with hx | hx
          · exact (procUserBlocks_trace_props wd w lt bs fs).1 x hx
          · exact (ih _ _).1 x hx
        · rw [heq, traceTexts_append, (procUserBlocks_trace_props wd w lt bs fs).2,
            (ih _ _).2, specAssistantTexts_cons_user]
          rfl
      · have heq : (procMessages wd cwd w fs lt (Message.user bs :: rest)).1 =
            (procMessages wd cwd w fs lt rest).1 := by
          simp only [procMessages]
          rw [if_neg hlt]
        exact ⟨fun x hx => (ih fs lt).1 x (by rwa [heq] at hx),
          by rw [heq, specAssistantTexts_cons_user]; exact (ih fs lt).2⟩
    | otherMsg =>
      exact ⟨fun x hx => (ih fs lt).1 x (by simpa [procMessages] using hx),
        by simpa [procMessages, specAssistantTexts] using (ih fs lt).2⟩

/-- Auto-open actions carry no text events. -/
theorem traceTexts_map_openFile (files : List Str) :
    traceTexts (files.map SendAction.openFile) = [] := by
  induction files with
  | nil => rfl
  | cons f rest ih => simp [traceTexts, List.filterMap_cons]

/-- C9: within one connected `send` call the trace splits as the streamed
events followed by the auto-open pass — the stream yields no auto-open
action (never interleaved), the tail consists solely of the
`_auto_open_file` invocations on the collected paths (run once, after the
stream); the text-chunk events equal the agent's text blocks in emission
order; no tool-result event is ever yielded, so every tool-result
occurrence is (vacuously) preceded by a tool-use event. -/
theorem send_event_ordering (s : SessionState) (cwd : Str) (w : SendWorld)
    (fs : FS) (msgs : List Message)
    (h1 : s.isConnected = true) (h2 : s.hasClient = true) :
    ∃ evPart openPart,
      (send s cwd w fs msgs).trace = evPart ++ openPart ∧
      (∀ x ∈ evPart, isOpenAction x = false) ∧
      (∀ x ∈ openPart, isOpenAction x = true) ∧
      (∃ files : List Str, openPart = files.map SendAction.openFile) ∧
      traceTexts (send s cwd w fs msgs).trace = specAssistantTexts msgs ∧
      (∀ x ∈ (send s cwd w fs msgs).trace, isToolResultEvent x = false) ∧
      (∀ (pre post : List SendAction) (r : Str),
        (send s cwd w fs msgs).trace =
          pre ++ SendAction.yieldEv (Event.toolResult r) :: post →
        ∃ x ∈ pre, isToolUseEvent x = true) := by
  have hc : s.isConnected ∧ s.hasClient := ⟨h1, h2⟩
  have hsend : (send s cwd w fs msgs).trace =
      (procMessages ((s.workingDir).getD []) cwd w fs none msgs).1 ++
        ((procMessages ((s.workingDir).getD []) cwd w fs none msgs).2.1).map
          SendAction.openFile := by
    unfold send
    rw [if_neg (not_not_intro hc)]
  have hprops := procMessages_trace_props ((s.workingDir).getD []) cwd w msgs fs none
  have hnores : ∀ x ∈ (send s cwd w fs msgs).trace, isToolResultEvent x = false := by
    intro x hx
    rw [hsend] at hx
    rcases List.mem_append.1 hx with hx | hx
    · exact (hprops.1 x hx).2
    · rcases List.mem_map.1 hx with ⟨f, _, hfa⟩
      rw [← hfa]
      rfl
  refine ⟨(procMessages ((s.workingDir).getD []) cwd w fs none msgs).1,
    ((procMessages ((s.workingDir).getD []) cwd w fs none msgs).2.1).map
      SendAction.openFile,
    hsend, fun x hx => (hprops.1 x hx).1, ?_, ?_, ?_, hnores, ?_⟩
  · intro x hx
    rcases List.mem_map.1 hx with ⟨f, _, hfa⟩
    rw [← hfa]
    rfl
  · exact ⟨(procMessages ((s.workingDir).getD []) cwd w fs none msgs).2.1, rfl⟩
  · rw [hsend, traceTexts_append, hprops.2, traceTexts_map_openFile]
    simp
  · intro pre post r heq
    have hmem : SendAction.yieldEv (Event.toolResult r) ∈ (send s cwd w fs msgs).trace := by
      rw [heq]
      simp
    have := hnores _ hmem
    simp [isToolResultEvent] at this

/-- Witness for C9: a connected session streaming one assistant message
with a text block and a `Write` tool use. -/
theorem send_event_ordering_witness :
    ∃ evPart openPart,
      (send { mkDesignSession emptyEnv (some (str "/work")) with
            isConnected := true, hasClient := true } []
          ⟨fun _ => [], fun _ => 0⟩ (fun _ => none)
          [Message.assistant [Block.text (str "Creating the page now."),
            Block.toolUse "Write"
              (fun k => if k = "file_path" then some (str "index.html") else none)]]).trace =
        evPart ++ openPart ∧
      (∀ x ∈ evPart, isOpenAction x = false) ∧
      (∀ x ∈ openPart, isOpenAction x = true) ∧
      (∃ files : List Str, openPart = files.map SendAction.openFile) ∧
      traceTexts
          (send { mkDesignSession emptyEnv (some (str "/work")) with
              isConnected := true, hasClient := true } []
            ⟨fun _ => [], fun _ => 0⟩ (fun _ => none)
            [Message.assistant [Block.text (str "Creating the page now."),
              Block.toolUse "Write"
                (fun k => if k = "file_path" then some (str "index.html") else none)]]).trace =
        specAssistantTexts
          [Message.assistant [Block.text (str "Creating the page now."),
            Block.toolUse "Write"
              (fun k => if k = "file_path" then some (str "index.html") else none)]] ∧
      (∀ x ∈ (send { mkDesignSession emptyEnv (some (str "/work")) with
            isConnected := true, hasClient := true } []
          ⟨fun _ => [], fun _ => 0⟩ (fun _ => none)
          [Message.assistant [Block.text (str "Creating the page now."),
            Block.toolUse "Write"
              (fun k => if k = "file_path" then some (str "index.html") else none)]]).trace,
        isToolResultEvent x = false) ∧
      (∀ (pre post : List SendAction) (r : Str),
        (send { mkDesignSession emptyEnv (some (str "/work")) with
            isConnected := true, hasClient := true } []
          ⟨fun _ => [], fun _ => 0⟩ (fun _ => none)
          [Message.assistant [Block.text (str "Creating the page now."),
            Block.toolUse "Write"
              (fun k => if k = "file_path" then some (str "index.html") else none)]]).trace =
          pre ++ SendAction.yieldEv (Event.toolResult r) :: post →
        ∃ x ∈ pre, isToolUseEvent x = true) :=
  send_event_ordering _ _ _ _ _ rfl rfl

end Pygmalion
